import Mathlib

/-!
Verification of the environment-discovery and process-orchestration core of the
Battlefield Portal MCP server (src/godot-mcp/build/index.js), shallowly embedded
in Lean 4.  Each definition mirrors one function or state field of the source;
filesystem reads, external-process probes and the platform are abstracted into
explicit context records so that the otherwise pure control flow can be stated
and proved exactly.
-/

namespace PortalMcp

/-- The underscore character, spelled by code point to keep every definition
kernel-computable. -/
def underscore : Char := Char.ofNat 95

mutual
/-- JSON-like values carried in tool-call parameter maps. -/
inductive JVal where
  | str : String → JVal
  | num : Int → JVal
  | boolean : Bool → JVal
  | jnull : JVal
  | arr : List JVal → JVal
  | obj : JEntries → JVal
  deriving Repr

/-- Ordered object entries, matching JavaScript object key iteration order.
A dedicated list type keeps the recursion of the two key converters
structural. -/
inductive JEntries where
  | nil : JEntries
  | cons : String → JVal → JEntries → JEntries
  deriving Repr
end

/-- `parameterMappings` (index.js lines 45-61): the static snake_case →
camelCase table. -/
def parameterMappings : List (String × String) :=
  [("project_path", "projectPath"),
   ("scene_path", "scenePath"),
   ("root_node_type", "rootNodeType"),
   ("parent_node_path", "parentNodePath"),
   ("node_type", "nodeType"),
   ("node_name", "nodeName"),
   ("texture_path", "texturePath"),
   ("node_path", "nodePath"),
   ("output_path", "outputPath"),
   ("mesh_item_names", "meshItemNames"),
   ("new_path", "newPath"),
   ("file_path", "filePath"),
   ("directory", "directory"),
   ("recursive", "recursive"),
   ("scene", "scene")]

/-- First-match association-list lookup, the behaviour of a JavaScript
property read on an object whose keys are pairwise distinct. -/
def assocFind : List (String × String) → String → Option String
  | [], _ => none
  | (k, v) :: rest, s => if k = s then some v else assocFind rest s

/-- `reverseParameterMappings` (index.js lines 66-72): built in the constructor
by inverting `parameterMappings` entry by entry.  The forward values are
pairwise distinct, so the JavaScript overwrite-on-assign semantics coincides
with this simple reversal. -/
def reverseParameterMappings : List (String × String) :=
  parameterMappings.map (fun p => (p.2, p.1))

/-- `key.includes(usc)` for a single character, as used by
`normalizeParameters`. -/
def strHasChar (s : String) (c : Char) : Bool :=
  s.data.any (fun d => d = c)

/-- Key conversion step of `normalizeParameters` (index.js line 643):
a key is rewritten only when it contains an underscore and is present in the
static table. -/
def normalizeKey (key : String) : String :=
  if strHasChar key underscore then
    match assocFind parameterMappings key with
    | some camel => camel
    | none => key
  else key

/-- `normalizeParameters` (index.js lines 634-656) restricted to the object
entries: keys are normalised, nested (non-array) object values are recursed
into, and every other value (scalar or array) passes through unchanged. -/
def normalizeEntries : JEntries → JEntries
  | JEntries.nil => JEntries.nil
  | JEntries.cons k (JVal.obj inner) rest =>
      JEntries.cons (normalizeKey k) (JVal.obj (normalizeEntries inner)) (normalizeEntries rest)
  | JEntries.cons k v rest => JEntries.cons (normalizeKey k) v (normalizeEntries rest)

/-- The camelCase → snake_case mechanical fallback of
`convertCamelToSnakeCase` (index.js line 667): every ASCII upper-case letter
is replaced by an underscore followed by its lower-case form. -/
def camelToSnakeFallback (key : String) : String :=
  String.mk (key.data.foldr
    (fun c acc => if c.isUpper then underscore :: c.toLower :: acc else c :: acc) [])

/-- Key conversion step of `convertCamelToSnakeCase` (index.js line 667):
the reverse table wins, otherwise the mechanical fallback applies.  (The
JavaScript `||` would also fall back on an empty-string table hit, but the
table holds no empty values.) -/
def snakeKey (key : String) : String :=
  match assocFind reverseParameterMappings key with
  | some snake => snake
  | none => camelToSnakeFallback key

/-- `convertCamelToSnakeCase` (index.js lines 662-678) restricted to the
object entries, with the same recursion shape as `normalizeEntries`. -/
def convertEntries : JEntries → JEntries
  | JEntries.nil => JEntries.nil
  | JEntries.cons k (JVal.obj inner) rest =>
      JEntries.cons (snakeKey k) (JVal.obj (convertEntries inner)) (convertEntries rest)
  | JEntries.cons k v rest => JEntries.cons (snakeKey k) v (convertEntries rest)

/-- A value is an object (the only case the two converters recurse into). -/
def isObjVal : JVal → Bool
  | JVal.obj _ => true
  | _ => false

/-- A singleton entry list with a non-object value is normalised by rewriting
only the key. -/
theorem normalizeEntries_single_nonobj (k : String) (v : JVal) (hv : isObjVal v = false) :
    normalizeEntries (JEntries.cons k v JEntries.nil) =
      JEntries.cons (normalizeKey k) v JEntries.nil := by
  cases v <;> first
    | rfl
    | exact absurd hv (by simp [isObjVal])

/-- A singleton entry list with a non-object value is converted back by
rewriting only the key. -/
theorem convertEntries_single_nonobj (k : String) (v : JVal) (hv : isObjVal v = false) :
    convertEntries (JEntries.cons k v JEntries.nil) =
      JEntries.cons (snakeKey k) v JEntries.nil := by
  cases v <;> first
    | rfl
    | exact absurd hv (by simp [isObjVal])

/-- Every key of the static table survives the snake → camel → snake round
trip. -/
theorem table_key_roundtrip : ∀ p ∈ parameterMappings, snakeKey (normalizeKey p.1) = p.1 := by
  decide

/-- C7, counterexample.  The claim quantifies over every value, but for a
nested object value the inner keys are themselves converted: the inner key
"A" (absent from the table) is transliterated to "_a" on the way back, so the
round trip of the singleton map with key "scene_path" is not lossless. -/
theorem C7_roundtrip_counterexample :
    convertEntries (normalizeEntries
        (JEntries.cons "scene_path"
          (JVal.obj (JEntries.cons "A" (JVal.str "x") JEntries.nil)) JEntries.nil)) =
      JEntries.cons "scene_path"
        (JVal.obj (JEntries.cons "_a" (JVal.str "x") JEntries.nil)) JEntries.nil ∧
    ¬ (convertEntries (normalizeEntries
        (JEntries.cons "scene_path"
          (JVal.obj (JEntries.cons "A" (JVal.str "x") JEntries.nil)) JEntries.nil)) =
      JEntries.cons "scene_path"
        (JVal.obj (JEntries.cons "A" (JVal.str "x") JEntries.nil)) JEntries.nil) := by
  refine ⟨rfl, ?_⟩
  intro h
  have h2 : JEntries.cons "scene_path"
        (JVal.obj (JEntries.cons "_a" (JVal.str "x") JEntries.nil)) JEntries.nil =
      JEntries.cons "scene_path"
        (JVal.obj (JEntries.cons "A" (JVal.str "x") JEntries.nil)) JEntries.nil := h
  simp at h2

/-- C7, amended.  `normalizeParameters` maps the singleton
`scene_path ↦ v` to `scenePath ↦ v` and `convertCamelToSnakeCase` maps
`scenePath ↦ v` back, and for every key of the static table the round trip
restores the original singleton — provided the value is not itself an object
(object values are recursed into, and their inner keys need not round-trip). -/
theorem C7_roundtrip_amended (v : JVal) (hv : isObjVal v = false) :
    (normalizeEntries (JEntries.cons "scene_path" v JEntries.nil) =
       JEntries.cons "scenePath" v JEntries.nil ∧
     convertEntries (JEntries.cons "scenePath" v JEntries.nil) =
       JEntries.cons "scene_path" v JEntries.nil) ∧
    ∀ k c, (k, c) ∈ parameterMappings →
      convertEntries (normalizeEntries (JEntries.cons k v JEntries.nil)) =
        JEntries.cons k v JEntries.nil := by
  constructor
  · constructor
    · rw [normalizeEntries_single_nonobj _ _ hv]
      have hk : normalizeKey "scene_path" = "scenePath" := by decide
      rw [hk]
    · rw [convertEntries_single_nonobj _ _ hv]
      have hk : snakeKey "scenePath" = "scene_path" := by decide
      rw [hk]
  · intro k c hmem
    rw [normalizeEntries_single_nonobj _ _ hv, convertEntries_single_nonobj _ _ hv,
      table_key_roundtrip (k, c) hmem]

/-- C7 witness: the amended round trip evaluated at the concrete singleton
map sending "scene_path" to the string "a.tscn". -/
theorem C7_roundtrip_amended_witness :
    isObjVal (JVal.str "a.tscn") = false ∧
    convertEntries (normalizeEntries
        (JEntries.cons "scene_path" (JVal.str "a.tscn") JEntries.nil)) =
      JEntries.cons "scene_path" (JVal.str "a.tscn") JEntries.nil :=
  ⟨rfl,
   (C7_roundtrip_amended (JVal.str "a.tscn") rfl).2 "scene_path" "scenePath" (by decide)⟩

/-! ## Command-line quoting in `executeOperation` (index.js lines 699-724)

The JavaScript escapes the serialized JSON parameter blob with single-character
global regex replacements; the embedding performs the same replacements
character by character.  `sq`, `dq` and `bs` are the quote and backslash
characters, spelled by code point. -/

/-- Single quote. -/
def sq : Char := Char.ofNat 39

/-- Double quote. -/
def dq : Char := Char.ofNat 34

/-- Backslash. -/
def bs : Char := Char.ofNat 92

/-- `paramsJson.replace(/POSIX-quote/g, quote-backslash-quote-quote)`
(index.js line 703): each single quote becomes the four-character sequence
close-quote, backslash, literal quote, reopen-quote. -/
def escBody : List Char → List Char
  | [] => []
  | c :: cs => if c = sq then sq :: bs :: sq :: sq :: escBody cs else c :: escBody cs

/-- The Windows replacement (index.js line 709): each double quote becomes
backslash, double quote. -/
def winBody : List Char → List Char
  | [] => []
  | c :: cs => if c = dq then bs :: dq :: winBody cs else c :: winBody cs

/-- `quotedParams` (index.js lines 707-710): platform-selected wrapping of the
serialized JSON blob.  On Windows the blob is wrapped in double quotes with
internal double quotes backslash-escaped; otherwise it is wrapped in single
quotes with internal single quotes replaced by the escape sequence above. -/
def quotedParams (isWindows : Bool) (paramsJson : String) : String :=
  if isWindows then String.mk (dq :: winBody paramsJson.data ++ [dq])
  else String.mk (sq :: escBody paramsJson.data ++ [sq])

/-- Modelled from the spec: the POSIX strategy as the spec words it —
"single-quote wrapping with internal single-quotes doubled". -/
def specPosixQuoteDoubled (paramsJson : String) : String :=
  String.mk (sq :: (paramsJson.data.flatMap (fun c => if c = sq then [sq, sq] else [c])) ++ [sq])

/-- Modelled from the spec: the Windows strategy as the spec words it —
"double-quote wrapping with internal double-quotes backslash-escaped". -/
def specWinQuote (paramsJson : String) : String :=
  String.mk (dq :: (paramsJson.data.flatMap (fun c => if c = dq then [bs, dq] else [c])) ++ [dq])

/-- Parser state of a minimal POSIX shell word splitter: outside quotes,
inside single quotes, inside double quotes, and the two states following a
backslash (outside quotes, inside double quotes). -/
inductive ShMode where
  | norm : ShMode
  | single : ShMode
  | double : ShMode
  | escN : ShMode
  | escD : ShMode

/-- Default field separators. -/
def isIfs (c : Char) : Bool :=
  c = ' ' || c = Char.ofNat 9 || c = Char.ofNat 10

/-- A minimal POSIX shell word splitter: blank-separated words with
single-quote sections, double-quote sections and backslash escapes.  Returns
`none` on an unterminated quote or trailing backslash. -/
def shRun : List Char → ShMode → List Char → Bool → Option (List (List Char))
  | [], ShMode.norm, cur, started => some (if started then [cur] else [])
  | [], _, _, _ => none
  | c :: cs, ShMode.norm, cur, started =>
    if isIfs c then
      if started then (shRun cs ShMode.norm [] false).map (fun ws => cur :: ws)
      else shRun cs ShMode.norm [] false
    else if c = bs then shRun cs ShMode.escN cur started
    else if c = sq then shRun cs ShMode.single cur true
    else if c = dq then shRun cs ShMode.double cur true
    else shRun cs ShMode.norm (cur ++ [c]) true
  | c :: cs, ShMode.escN, cur, _ => shRun cs ShMode.norm (cur ++ [c]) true
  | c :: cs, ShMode.single, cur, started =>
    if c = sq then shRun cs ShMode.norm cur started
    else shRun cs ShMode.single (cur ++ [c]) started
  | c :: cs, ShMode.escD, cur, started => shRun cs ShMode.double (cur ++ [c]) started
  | c :: cs, ShMode.double, cur, started =>
    if c = dq then shRun cs ShMode.norm cur started
    else if c = bs then shRun cs ShMode.escD cur started
    else shRun cs ShMode.double (cur ++ [c]) started

/-- Split a string into shell words. -/
def posixSplit (s : String) : Option (List String) :=
  (shRun s.data ShMode.norm [] false).map (fun ws => ws.map String.mk)

/-- Consuming the escaped body and the closing quote from inside a
single-quote section appends exactly the original characters to the current
word and ends the input having emitted that single word. -/
theorem shRun_escBody (cs : List Char) (acc : List Char) :
    shRun (escBody cs ++ [sq]) ShMode.single acc true = some [acc ++ cs] := by
  induction cs generalizing acc with
  | nil => simp [escBody, shRun]
  | cons c cs ih =>
    by_cases h : c = sq
    · subst h
      have e1 : escBody (sq :: cs) = sq :: bs :: sq :: sq :: escBody cs := rfl
      have e2 : ∀ (x a : List Char), shRun (sq :: x) ShMode.single a true =
          shRun x ShMode.norm a true := fun _ _ => rfl
      have e3 : ∀ (x a : List Char), shRun (bs :: sq :: x) ShMode.norm a true =
          shRun x ShMode.norm (a ++ [sq]) true := fun _ _ => rfl
      have e5 : ∀ (x a : List Char), shRun (sq :: x) ShMode.escN a true =
          shRun x ShMode.norm (a ++ [sq]) true := fun _ _ => rfl
      have e4 : ∀ (x a : List Char), shRun (sq :: x) ShMode.norm a true =
          shRun x ShMode.single a true := fun _ _ => rfl
      rw [e1]
      simp only [List.cons_append]
      rw [e2, e3, e4, ih (acc ++ [sq])]
      simp
    · simp only [escBody, if_neg h, List.cons_append, shRun, if_neg h]
      rw [ih (acc ++ [c])]
      simp

/-- C3, counterexample.  For the one-character blob consisting of a single
quote, the command line built by `executeOperation` on a POSIX platform is
not the spec-claimed "internal single-quotes doubled" form: the code emits
the close-quote/backslash-quote/reopen-quote sequence instead. -/
theorem C3_posix_doubling_counterexample :
    quotedParams false (String.mk [sq]) ≠ specPosixQuoteDoubled (String.mk [sq]) := by
  decide

/-- C3, amended.  `executeOperation` passes the serialized JSON blob as
exactly one shell argument: on Windows the blob is wrapped in double quotes
with each internal double quote backslash-escaped (as the spec states), and
on POSIX-like platforms it is wrapped in single quotes with each internal
single quote replaced by the sequence quote–backslash–quote–quote (closing
the quotes, escaping a literal quote, reopening) — not doubled.  Under POSIX
shell quoting rules the POSIX form parses back to exactly the one original
word. -/
theorem C3_quoting_amended (paramsJson : String) :
    quotedParams true paramsJson = specWinQuote paramsJson ∧
    posixSplit (quotedParams false paramsJson) = some [paramsJson] := by
  constructor
  · have : winBody paramsJson.data =
        paramsJson.data.flatMap (fun c => if c = dq then [bs, dq] else [c]) := by
      induction paramsJson.data with
      | nil => rfl
      | cons c cs ih =>
        by_cases h : c = dq <;> simp [winBody, h, ih]
    simp [quotedParams, specWinQuote, this]
  · have e0 : quotedParams false paramsJson =
        String.mk (sq :: escBody paramsJson.data ++ [sq]) := rfl
    have e6 : ∀ (x : List Char), shRun (sq :: x) ShMode.norm [] false =
        shRun x ShMode.single [] true := fun _ => rfl
    have hmk : String.mk paramsJson.data = paramsJson := rfl
    rw [e0]
    simp only [posixSplit, List.cons_append]
    rw [e6, shRun_escBody paramsJson.data []]
    simp [hmk]

/-! ## Paths, the abstract filesystem, and Portal SDK discovery

Paths are plain strings.  Node's `path.normalize` collapses separators and
dot segments; the embedding represents every path already in normal form, so
`normalize` is the identity here — the call sites are still recorded
faithfully.  `existsSync` becomes an abstract filesystem oracle supplied in a
context record. -/

/-- Node `path.normalize`, modelled as the identity.  This is exact on
canonical paths and also on paths whose only parent-directory segments are
leading ones (Node leaves "../x" unchanged); every path the embedded call
sites receive lies in this domain — in particular, the traversal
counterexamples below use only the leading "../" form, never interior
segments such as "a/../b", which Node would collapse. -/
def normalize (p : String) : String := p

/-- Forward slash. -/
def slash : Char := Char.ofNat 47

/-- Node `path.join` of two segments (POSIX separator, canonical inputs). -/
def pathJoin (a b : String) : String := a ++ String.mk [slash] ++ b

/-- JavaScript truthiness of a possibly-absent string: present and
non-empty. -/
def truthy : Option String → Bool
  | none => false
  | some s => s ≠ ""

/-- `pat` is a leading subsequence of `l`. -/
def seqLeads : List Char → List Char → Bool
  | [], _ => true
  | _ :: _, [] => false
  | p :: ps, c :: cs => p = c && seqLeads ps cs

/-- `pat` occurs contiguously somewhere in `l`. -/
def seqInside (pat : List Char) : List Char → Bool
  | [] => seqLeads pat []
  | c :: cs => seqLeads pat (c :: cs) || seqInside pat cs

/-- JavaScript `s.includes(pat)`. -/
def jsIncludes (s pat : String) : Bool := seqInside pat.data s.data

/-- `validatePath` (index.js lines 176-183): reject empty paths and any path
containing a parent-directory marker. -/
def validatePath (path : String) : Bool :=
  if path = "" then false
  else if jsIncludes path ".." then false
  else true

/-- Node `path.posix.dirname` scan: walk the reversed characters (excluding
index 0), looking for the separator that ends the last component. -/
def dirnameScan : List Char → Bool → Nat → Option Nat
  | [], _, _ => none
  | c :: rest, matched, i =>
    if c = slash then
      if matched then dirnameScan rest true (i - 1) else some i
    else dirnameScan rest false (i - 1)

/-- Node `path.posix.dirname`. -/
def dirname (path : String) : String :=
  if path.data = [] then "."
  else
    let hasRoot := path.data.head? = some slash
    match dirnameScan path.data.reverse.dropLast true (path.data.length - 1) with
    | none => if hasRoot then String.mk [slash] else "."
    | some e =>
      if hasRoot ∧ e = 1 then String.mk [slash, slash]
      else String.mk (path.data.take e)

/-- Ambient Node state consumed by Portal path discovery: the `existsSync`
oracle, the working directory, and the server install directory
(`__dirname`). -/
structure NodeCtx where
  existsSync : String → Bool
  cwd : String
  dirnameOfServer : String

/-- `isValidPortalSdkRoot` (index.js lines 353-364): a root must contain
`SDK`, `GodotProject`, `GodotProject/project.godot` and
`SDK/deps/FbExportData`. -/
def isValidPortalSdkRoot (fs : String → Bool) (pathToCheck : String) : Bool :=
  if pathToCheck = "" then false
  else
    let sdkDir := pathJoin pathToCheck "SDK"
    let projectDir := pathJoin pathToCheck "GodotProject"
    let fbExportDir := pathJoin (pathJoin (pathJoin pathToCheck "SDK") "deps") "FbExportData"
    fs sdkDir && fs projectDir && fs (pathJoin projectDir "project.godot") && fs fbExportDir

/-- The upward loop of `resolvePortalSdkRootFrom` (index.js lines 331-347).
The JavaScript loop is guarded by a visited set and the parent-fixpoint test;
here the same loop runs on fuel (each `dirname` step shortens the path or
reaches a fixpoint, so `length + 2` steps always suffice), returning `none`
when the walk is unproductive. -/
def resolveWalk (fs : String → Bool) : Nat → String → Option String
  | 0, _ => none
  | fuel + 1, current =>
    if isValidPortalSdkRoot fs current then some current
    else if isValidPortalSdkRoot fs (pathJoin current "PortalSDK") then
      some (pathJoin current "PortalSDK")
    else
      let parent := dirname current
      if parent = current then none
      else resolveWalk fs fuel parent

/-- `resolvePortalSdkRootFrom` (index.js lines 327-349). -/
def resolvePortalSdkRootFrom (fs : String → Bool) (startDir : String) : Option String :=
  if startDir = "" then none
  else resolveWalk fs (startDir.length + 2) (normalize startDir)

/-- The server configuration fields consumed by Portal path discovery. -/
structure Config where
  portalSdkPath : Option String := none
  portalProjectPath : Option String := none
  fbExportDataPath : Option String := none

/-- The environment variables consumed by Portal path discovery
(`PORTAL_SDK_PATH`, `PORTAL_PROJECT_PATH`, `PORTAL_FB_EXPORT_PATH`).  An
unset or empty variable is `none`, matching the JavaScript truthiness
checks. -/
structure Env where
  portalSdkPath : Option String := none
  portalProjectPath : Option String := none
  portalFbExportPath : Option String := none

/-- The three mutable Portal path fields of the server
(`portalSdkPath`, `portalProjectPath`, `fbExportDataPath`). -/
structure PortalState where
  portalSdkPath : Option String := none
  portalProjectPath : Option String := none
  fbExportDataPath : Option String := none
  deriving Repr, DecidableEq

/-- `addCandidate` (index.js lines 260-267): normalise and append, skipping
falsy values and duplicates. -/
def addCandidate (roots : List String) (candidate : Option String) : List String :=
  match candidate with
  | none => roots
  | some c =>
    if c = "" then roots
    else
      let n := normalize c
      if roots.contains n then roots else roots ++ [n]

/-- Candidate SDK roots from configuration, state and environment
(index.js lines 268-276). -/
def sdkRootCandidates (cfg : Config) (env : Env) (st : PortalState) : List String :=
  let base :=
    if !(truthy st.portalSdkPath) && truthy cfg.portalSdkPath then
      addCandidate [] cfg.portalSdkPath
    else if truthy st.portalSdkPath then addCandidate [] st.portalSdkPath
    else []
  addCandidate base env.portalSdkPath

/-- Project path overrides from configuration then environment
(index.js lines 277-282). -/
def applyProjectOverride (cfg : Config) (env : Env) (st : PortalState) : PortalState :=
  let st1 :=
    if !(truthy st.portalProjectPath) && truthy cfg.portalProjectPath then
      { st with portalProjectPath := some (normalize (cfg.portalProjectPath.getD "")) }
    else st
  if !(truthy st1.portalProjectPath) && truthy env.portalProjectPath then
    { st1 with portalProjectPath := some (normalize (env.portalProjectPath.getD "")) }
  else st1

/-- FbExportData path overrides from configuration then environment
(index.js lines 283-288). -/
def applyFbOverride (cfg : Config) (env : Env) (st : PortalState) : PortalState :=
  let st1 :=
    if !(truthy st.fbExportDataPath) && truthy cfg.fbExportDataPath then
      { st with fbExportDataPath := some (normalize (cfg.fbExportDataPath.getD "")) }
    else st
  if !(truthy st1.fbExportDataPath) && truthy env.portalFbExportPath then
    { st1 with fbExportDataPath := some (normalize (env.portalFbExportPath.getD "")) }
  else st1

/-- The candidate loop of `detectPortalPaths` (index.js lines 296-304): the
first valid candidate becomes the resolved SDK root. -/
def selectSdkRoot (fs : String → Bool) (roots : List String) (st : PortalState) : PortalState :=
  match roots.find? (fun c => isValidPortalSdkRoot fs c) with
  | some c => { st with portalSdkPath := some c }
  | none => st

/-- Derivation of the dependent paths from a resolved SDK root
(index.js lines 305-316). -/
def deriveFromSdk (fs : String → Bool) (st : PortalState) : PortalState :=
  match st.portalSdkPath with
  | none => st
  | some sdk =>
    let projectCandidate := normalize (pathJoin sdk "GodotProject")
    let st1 :=
      if !(truthy st.portalProjectPath) && fs (pathJoin projectCandidate "project.godot") then
        { st with portalProjectPath := some projectCandidate }
      else st
    let fbCandidate := normalize (pathJoin (pathJoin (pathJoin sdk "SDK") "deps") "FbExportData")
    if !(truthy st1.fbExportDataPath) && fs fbCandidate then
      { st1 with fbExportDataPath := some fbCandidate }
    else st1

/-- Trailing re-normalisation of `detectPortalPaths`
(index.js lines 317-322). -/
def finalNorm (st : PortalState) : PortalState :=
  let st1 :=
    if truthy st.portalProjectPath then
      { st with portalProjectPath := st.portalProjectPath.map normalize }
    else st
  if truthy st1.fbExportDataPath then
    { st1 with fbExportDataPath := st1.fbExportDataPath.map normalize }
  else st1

/-- `detectPortalPaths` (index.js lines 258-323), staged in the order the
JavaScript executes: gather configuration/state/environment candidates, apply
project and export-data overrides, add upward-walk candidates from the three
search directories, select the first valid root, derive dependent paths, and
re-normalise. -/
def detectPortalPaths (ctx : NodeCtx) (cfg : Config) (env : Env) (st : PortalState) :
    PortalState :=
  let roots := sdkRootCandidates cfg env st
  let st1 := applyProjectOverride cfg env st
  let st2 := applyFbOverride cfg env st1
  let searchDirs := [ctx.cwd, ctx.dirnameOfServer, dirname ctx.dirnameOfServer]
  let roots2 := searchDirs.foldl (fun acc d =>
      match resolvePortalSdkRootFrom ctx.existsSync d with
      | some r => addCandidate acc (some r)
      | none => acc) roots
  let st3 := selectSdkRoot ctx.existsSync roots2 st2
  let st4 := deriveFromSdk ctx.existsSync st3
  finalNorm st4

/-- `resolveProjectPath` (index.js lines 368-377): an explicit argument wins
as supplied; otherwise re-run detection and use the detected Portal project
path, if any.  The updated Portal state is returned alongside. -/
def resolveProjectPath (ctx : NodeCtx) (cfg : Config) (env : Env) (st : PortalState)
    (providedPath : Option String) : Option String × PortalState :=
  if truthy providedPath then (some (normalize (providedPath.getD "")), st)
  else
    let st1 := detectPortalPaths ctx cfg env st
    if truthy st1.portalProjectPath then (st1.portalProjectPath, st1)
    else (none, st1)

/-- `normalize` is the identity, so mapping it over an optional path is the
identity. -/
theorem map_normalize (x : Option String) : x.map normalize = x := by
  cases x <;> rfl

/-- The trailing re-normalisation of `detectPortalPaths` changes nothing in
the embedding. -/
theorem finalNorm_id (st : PortalState) : finalNorm st = st := by
  cases st with
  | mk a b c =>
    simp only [finalNorm, map_normalize]
    split <;> split <;> rfl

/-- `addCandidate` only ever appends. -/
theorem addCandidate_extend (roots : List String) (c : Option String) :
    ∃ t, addCandidate roots c = roots ++ t := by
  cases c with
  | none => exact ⟨[], by simp [addCandidate]⟩
  | some s =>
    by_cases h1 : s = ""
    · exact ⟨[], by simp [addCandidate, h1]⟩
    · by_cases h2 : normalize s ∈ roots
      · exact ⟨[], by simp [addCandidate, h1, h2]⟩
      · exact ⟨[normalize s], by simp [addCandidate, h1, h2]⟩

/-- The upward-walk candidate pass of `detectPortalPaths` only ever appends
to the list gathered so far. -/
theorem walkCandidates_extend (ctx : NodeCtx) (dirs : List String) (roots : List String) :
    ∃ t, dirs.foldl (fun acc d =>
      match resolvePortalSdkRootFrom ctx.existsSync d with
      | some r => addCandidate acc (some r)
      | none => acc) roots = roots ++ t := by
  induction dirs generalizing roots with
  | nil => exact ⟨[], by simp⟩
  | cons d ds ih =>
    simp only [List.foldl_cons]
    cases hr : resolvePortalSdkRootFrom ctx.existsSync d with
    | none =>
      obtain ⟨t, ht⟩ := ih roots
      exact ⟨t, ht⟩
    | some r =>
      obtain ⟨t1, h1⟩ := addCandidate_extend roots (some r)
      obtain ⟨t2, h2⟩ := ih (roots ++ t1)
      refine ⟨t1 ++ t2, ?_⟩
      show List.foldl _ (addCandidate roots (some r)) ds = roots ++ (t1 ++ t2)
      rw [h1, h2, List.append_assoc]

/-- `applyFbOverride` never touches the project path. -/
theorem applyFbOverride_proj (cfg : Config) (env : Env) (st : PortalState) :
    (applyFbOverride cfg env st).portalProjectPath = st.portalProjectPath := by
  simp only [applyFbOverride]
  split <;> split <;> rfl

/-- `selectSdkRoot` never touches the project path. -/
theorem selectSdkRoot_proj (fs : String → Bool) (roots : List String) (st : PortalState) :
    (selectSdkRoot fs roots st).portalProjectPath = st.portalProjectPath := by
  simp only [selectSdkRoot]
  split <;> rfl

/-- Once the project path is set (truthily), `deriveFromSdk` keeps it. -/
theorem deriveFromSdk_proj (fs : String → Bool) (st : PortalState)
    (h : truthy st.portalProjectPath = true) :
    (deriveFromSdk fs st).portalProjectPath = st.portalProjectPath := by
  simp only [deriveFromSdk]
  cases hsdk : st.portalSdkPath with
  | none => rfl
  | some sdk =>
    simp only [h, Bool.not_true, Bool.false_and, Bool.false_eq_true, if_false]
    split <;> rfl

/-- With no cached and no configured project path, the environment override
becomes the project path after `applyProjectOverride`. -/
theorem applyProjectOverride_env (cfg : Config) (env : Env) (st : PortalState) (e : String)
    (hst : truthy st.portalProjectPath = false)
    (hcfg : truthy cfg.portalProjectPath = false)
    (henv : env.portalProjectPath = some e) (he : e ≠ "") :
    (applyProjectOverride cfg env st).portalProjectPath = some e := by
  have hte : truthy (some e) = true := by simp [truthy, he]
  simp [applyProjectOverride, hcfg, henv, hte, hst, normalize]

/-- C8.  Resolution of the effective project path: an explicit per-call
argument is used as supplied, and in its absence a `PORTAL_PROJECT_PATH`
environment override is the result — for every filesystem, i.e. regardless of
what auto-detection would derive — so the environment wins over
auto-detection but loses to the explicit argument. -/
theorem C8_project_path_precedence (ctx : NodeCtx) (cfg : Config) (env : Env)
    (st : PortalState) (p e : String) (hp : p ≠ "") (he : e ≠ "")
    (hst : truthy st.portalProjectPath = false)
    (hcfg : truthy cfg.portalProjectPath = false)
    (henv : env.portalProjectPath = some e) :
    (resolveProjectPath ctx cfg env st (some p)).1 = some p ∧
    (resolveProjectPath ctx cfg env st none).1 = some e := by
  constructor
  · simp [resolveProjectPath, truthy, hp, normalize]
  · have hdet : (detectPortalPaths ctx cfg env st).portalProjectPath = some e := by
      simp only [detectPortalPaths]
      rw [finalNorm_id]
      have h1 := applyProjectOverride_env cfg env st e hst hcfg henv he
      have h2 := applyFbOverride_proj cfg env (applyProjectOverride cfg env st)
      rw [h1] at h2
      have h3 := selectSdkRoot_proj ctx.existsSync
        ([ctx.cwd, ctx.dirnameOfServer, dirname ctx.dirnameOfServer].foldl (fun acc d =>
          match resolvePortalSdkRootFrom ctx.existsSync d with
          | some r => addCandidate acc (some r)
          | none => acc) (sdkRootCandidates cfg env st))
        (applyFbOverride cfg env (applyProjectOverride cfg env st))
      rw [h2] at h3
      have h4 := deriveFromSdk_proj ctx.existsSync
        (selectSdkRoot ctx.existsSync
          ([ctx.cwd, ctx.dirnameOfServer, dirname ctx.dirnameOfServer].foldl (fun acc d =>
            match resolvePortalSdkRootFrom ctx.existsSync d with
            | some r => addCandidate acc (some r)
            | none => acc) (sdkRootCandidates cfg env st))
          (applyFbOverride cfg env (applyProjectOverride cfg env st)))
        (by rw [h3]; simp [truthy, he])
      rw [h3] at h4
      exact h4
    simp [resolveProjectPath, truthy, hdet, he]

/-- C8 witness: with an empty filesystem, no cached state, and
`PORTAL_PROJECT_PATH` set to "envproj", an explicit argument "arg" wins and
an absent argument resolves to "envproj". -/
theorem C8_project_path_precedence_witness :
    (resolveProjectPath ⟨fun _ => false, "cwd", "dir"⟩ ⟨none, none, none⟩
        ⟨none, some "envproj", none⟩ ⟨none, none, none⟩ (some "arg")).1 = some "arg" ∧
    (resolveProjectPath ⟨fun _ => false, "cwd", "dir"⟩ ⟨none, none, none⟩
        ⟨none, some "envproj", none⟩ ⟨none, none, none⟩ none).1 = some "envproj" :=
  C8_project_path_precedence ⟨fun _ => false, "cwd", "dir"⟩ ⟨none, none, none⟩
    ⟨none, some "envproj", none⟩ ⟨none, none, none⟩ "arg" "envproj"
    (by decide) (by decide) (by decide) (by decide) rfl

/-- An absent string is falsy. -/
theorem truthy_none : truthy none = false := rfl

/-- C6.  A directory containing `SDK`, `GodotProject` with a `project.godot`
manifest, and `SDK/deps/FbExportData` passes `isValidPortalSdkRoot`, and —
absent explicit project/export-data overrides — `detectPortalPaths` resolves
it as the Portal SDK root and derives `<root>/GodotProject` and
`<root>/SDK/deps/FbExportData` as the dependent paths. -/
theorem C6_sdk_root_detection (ctx : NodeCtx) (env : Env) (root : String)
    (h0 : root ≠ "")
    (h1 : ctx.existsSync (pathJoin root "SDK") = true)
    (h2 : ctx.existsSync (pathJoin root "GodotProject") = true)
    (h3 : ctx.existsSync (pathJoin (pathJoin root "GodotProject") "project.godot") = true)
    (h4 : ctx.existsSync (pathJoin (pathJoin (pathJoin root "SDK") "deps") "FbExportData") = true)
    (henvP : truthy env.portalProjectPath = false)
    (henvF : truthy env.portalFbExportPath = false) :
    isValidPortalSdkRoot ctx.existsSync root = true ∧
    detectPortalPaths ctx ⟨some root, none, none⟩ env ⟨none, none, none⟩ =
      ⟨some root, some (pathJoin root "GodotProject"),
        some (pathJoin (pathJoin (pathJoin root "SDK") "deps") "FbExportData")⟩ := by
  have hvalid : isValidPortalSdkRoot ctx.existsSync root = true := by
    simp [isValidPortalSdkRoot, h0, h1, h2, h3, h4]
  refine ⟨hvalid, ?_⟩
  have htr : truthy (some root) = true := by simp [truthy, h0]
  have hcands : sdkRootCandidates ⟨some root, none, none⟩ env ⟨none, none, none⟩ =
      addCandidate [root] env.portalSdkPath := by
    simp [sdkRootCandidates, truthy_none, htr, addCandidate, h0, normalize]
  have hproj : applyProjectOverride ⟨some root, none, none⟩ env ⟨none, none, none⟩ =
      (⟨none, none, none⟩ : PortalState) := by
    simp [applyProjectOverride, truthy_none, henvP]
  have hfb : applyFbOverride ⟨some root, none, none⟩ env ⟨none, none, none⟩ =
      (⟨none, none, none⟩ : PortalState) := by
    simp [applyFbOverride, truthy_none, henvF]
  obtain ⟨t1, ht1⟩ := addCandidate_extend [root] env.portalSdkPath
  obtain ⟨t2, ht2⟩ := walkCandidates_extend ctx
    [ctx.cwd, ctx.dirnameOfServer, dirname ctx.dirnameOfServer] ([root] ++ t1)
  have hsel : selectSdkRoot ctx.existsSync (([root] ++ t1) ++ t2) ⟨none, none, none⟩ =
      (⟨some root, none, none⟩ : PortalState) := by
    have hl : ([root] ++ t1) ++ t2 = root :: (t1 ++ t2) := by simp
    rw [hl]
    simp [selectSdkRoot, List.find?_cons, hvalid]
  have hder : deriveFromSdk ctx.existsSync ⟨some root, none, none⟩ =
      (⟨some root, some (pathJoin root "GodotProject"),
        some (pathJoin (pathJoin (pathJoin root "SDK") "deps") "FbExportData")⟩ : PortalState) := by
    simp [deriveFromSdk, truthy_none, normalize, h3, h4]
  simp only [detectPortalPaths]
  rw [hcands, hproj, hfb, ht1, ht2, hsel, hder, finalNorm_id]

/-- C6 witness: on a filesystem where every probe succeeds, the root "r"
supplied through the configuration is resolved and both dependent paths are
derived. -/
theorem C6_sdk_root_detection_witness :
    isValidPortalSdkRoot (fun _ => true) "r" = true ∧
    detectPortalPaths ⟨fun _ => true, "cwd", "dir"⟩ ⟨some "r", none, none⟩
        ⟨none, none, none⟩ ⟨none, none, none⟩ =
      ⟨some "r", some (pathJoin "r" "GodotProject"),
        some (pathJoin (pathJoin (pathJoin "r" "SDK") "deps") "FbExportData")⟩ :=
  C6_sdk_root_detection ⟨fun _ => true, "cwd", "dir"⟩ ⟨none, none, none⟩ "r"
    (by decide) rfl rfl rfl rfl rfl rfl

/-! ## Godot executable discovery and the validation cache
(index.js lines 229-254 and 515-582)

The external `--version` probe and `existsSync` become oracles in a context
record; the `validatedPaths` map becomes an insertion-ordered association
list.  A validation result also reports which probes were launched, so that
"no external probe" is a provable statement. -/

/-- The operating-system families distinguished by `detectGodotPath`. -/
inductive OsKind where
  | darwin : OsKind
  | win32 : OsKind
  | linux : OsKind
  | otherOs : OsKind
  deriving Repr, DecidableEq

/-- Ambient state consumed by Godot executable discovery. -/
structure GodotCtx where
  existsSync : String → Bool
  versionProbeOk : String → Bool
  osKind : OsKind
  envGodotPath : Option String
  envHome : String
  envUserProfile : String

/-- Lookup in the `validatedPaths` map. -/
def cacheLookup : List (String × Bool) → String → Option Bool
  | [], _ => none
  | (k, v) :: rest, p => if k = p then some v else cacheLookup rest p

/-- The constructor starts with an empty `validatedPaths` map
(index.js line 34); a fresh configuration therefore revalidates every
path. -/
def initialValidatedPaths : List (String × Bool) := []

/-- Outcome of one `isValidGodotPath` call: the verdict, the updated cache,
and the version probes actually launched. -/
structure ValidationResult where
  valid : Bool
  cache : List (String × Bool)
  probes : List String
  deriving Repr, DecidableEq

/-- `isValidGodotPath` (index.js lines 229-254): consult the cache first;
otherwise check existence (skipped for the bare command "godot"), launch the
`--version` probe, and cache the outcome. -/
def isValidGodotPath (ctx : GodotCtx) (cache : List (String × Bool)) (path : String) :
    ValidationResult :=
  match cacheLookup cache path with
  | some b => ⟨b, cache, []⟩
  | none =>
    if path ≠ "godot" && !ctx.existsSync path then ⟨false, cache ++ [(path, false)], []⟩
    else if ctx.versionProbeOk path then ⟨true, cache ++ [(path, true)], [path]⟩
    else ⟨false, cache ++ [(path, false)], [path]⟩

/-- The non-strict hard-coded fallback path per platform
(index.js lines 568-578). -/
def defaultGodotPath : OsKind → String
  | OsKind.win32 => "C:\\Program Files\\Godot\\Godot.exe"
  | OsKind.darwin => "/Applications/Godot.app/Contents/MacOS/Godot"
  | _ => "/usr/bin/godot"

/-- The candidate list of `detectGodotPath` (index.js lines 537-549):
"godot" on the search path first, then the platform-specific well-known
locations (with `HOME`/`USERPROFILE` interpolation). -/
def possibleGodotPaths (ctx : GodotCtx) : List String :=
  "godot" :: (match ctx.osKind with
    | OsKind.darwin =>
        ["/Applications/Godot.app/Contents/MacOS/Godot",
         "/Applications/Godot_4.app/Contents/MacOS/Godot",
         ctx.envHome ++ "/Applications/Godot.app/Contents/MacOS/Godot",
         ctx.envHome ++ "/Applications/Godot_4.app/Contents/MacOS/Godot",
         ctx.envHome ++ "/Library/Application Support/Steam/steamapps/common/Godot Engine/Godot.app/Contents/MacOS/Godot"]
    | OsKind.win32 =>
        ["C:\\Program Files\\Godot\\Godot.exe",
         "C:\\Program Files (x86)\\Godot\\Godot.exe",
         "C:\\Program Files\\Godot_4\\Godot.exe",
         "C:\\Program Files (x86)\\Godot_4\\Godot.exe",
         ctx.envUserProfile ++ "\\Godot\\Godot.exe"]
    | OsKind.linux =>
        ["/usr/bin/godot", "/usr/local/bin/godot", "/snap/bin/godot",
         ctx.envHome ++ "/.local/bin/godot"]
    | OsKind.otherOs => [])

/-- The candidate loop of `detectGodotPath` (index.js lines 550-558): first
valid candidate wins, the cache threads through every attempt. -/
def tryGodotPaths (ctx : GodotCtx) :
    List (String × Bool) → List String → Option String × List (String × Bool)
  | cache, [] => (none, cache)
  | cache, p :: rest =>
    let r := isValidGodotPath ctx cache (normalize p)
    if r.valid then (some (normalize p), r.cache)
    else tryGodotPaths ctx r.cache rest

/-- The error message thrown in strict mode (index.js line 565): the
`ToolNotFound` failure of the spec. -/
def toolNotFoundMsg : String :=
  "Could not find a valid Godot executable. Set GODOT_PATH or provide a valid path in config."

/-- Final stage of `detectGodotPath` (index.js lines 534-581): the candidate
loop, then strict failure or the warned hard-coded fallback.  The result
carries the resolved path, the cache, and whether the fallback warning was
recorded. -/
def detectStep3 (ctx : GodotCtx) (cache : List (String × Bool)) (strict : Bool) :
    Except String (String × List (String × Bool) × Bool) :=
  match tryGodotPaths ctx cache (possibleGodotPaths ctx) with
  | (some p, c2) => Except.ok (p, c2, false)
  | (none, c2) =>
    if strict then Except.error toolNotFoundMsg
    else Except.ok (normalize (defaultGodotPath ctx.osKind), c2, true)

/-- Environment-variable stage of `detectGodotPath`
(index.js lines 522-533). -/
def detectStep2 (ctx : GodotCtx) (cache : List (String × Bool)) (strict : Bool) :
    Except String (String × List (String × Bool) × Bool) :=
  match ctx.envGodotPath with
  | some e =>
    if e ≠ "" then
      let n := normalize e
      let r := isValidGodotPath ctx cache n
      if r.valid then Except.ok (n, r.cache, false) else detectStep3 ctx r.cache strict
    else detectStep3 ctx cache strict
  | none => detectStep3 ctx cache strict

/-- `detectGodotPath` (index.js lines 515-582): keep an already-set valid
path, then the environment override, then the candidate loop with fallback
handling. -/
def detectGodotPath (ctx : GodotCtx) (godotPath : Option String)
    (cache : List (String × Bool)) (strict : Bool) :
    Except String (String × List (String × Bool) × Bool) :=
  if truthy godotPath then
    let g := godotPath.getD ""
    let r := isValidGodotPath ctx cache g
    if r.valid then Except.ok (g, r.cache, false) else detectStep2 ctx r.cache strict
  else detectStep2 ctx cache strict

/-- Startup outcome of `run` (index.js lines 2443-2478): the process either
exits with a code or keeps serving with a resolved Godot path, possibly
after a warning. -/
inductive StartupOutcome where
  | exited : Nat → StartupOutcome
  | running : String → Bool → StartupOutcome
  deriving Repr, DecidableEq

/-- `run` (index.js lines 2443-2478): detection failure (the strict-mode
throw) exits the process; otherwise the resolved path is re-validated and an
invalid path exits in strict mode or warns and continues otherwise. -/
def runStartup (ctx : GodotCtx) (godotPath : Option String)
    (cache : List (String × Bool)) (strict : Bool) : StartupOutcome :=
  match detectGodotPath ctx godotPath cache strict with
  | Except.error _ => StartupOutcome.exited 1
  | Except.ok (g, c2, warned) =>
    let r := isValidGodotPath ctx c2 g
    if !r.valid then
      if strict then StartupOutcome.exited 1
      else StartupOutcome.running g true
    else StartupOutcome.running g warned

/-- No cache entry records a successful validation. -/
def noTrueEntry (cache : List (String × Bool)) : Prop :=
  ∀ p, cacheLookup cache p ≠ some true

/-- Every external `--version` probe fails. -/
def allProbesFail (ctx : GodotCtx) : Prop :=
  ∀ p, ctx.versionProbeOk p = false

/-- Lookup distributes over cache append. -/
theorem cacheLookup_append (c1 c2 : List (String × Bool)) (q : String) :
    cacheLookup (c1 ++ c2) q =
      (match cacheLookup c1 q with
       | some b => some b
       | none => cacheLookup c2 q) := by
  induction c1 with
  | nil => simp [cacheLookup]
  | cons kv rest ih =>
    cases kv with
    | mk k v =>
      by_cases h : k = q
      · simp [cacheLookup, h]
      · simp [cacheLookup, h, ih]

/-- Appending a failed verdict preserves the absence of successful
entries. -/
theorem noTrue_append_false (cache : List (String × Bool)) (h : noTrueEntry cache)
    (p : String) : noTrueEntry (cache ++ [(p, false)]) := by
  intro q
  rw [cacheLookup_append]
  cases hc : cacheLookup cache q with
  | some b =>
    intro hcontra
    exact h q (by rw [hc]; exact hcontra)
  | none =>
    simp only [cacheLookup]
    split <;> simp

/-- When every probe fails and the cache holds no success, validation fails
and the cache still holds no success. -/
theorem isValid_false (ctx : GodotCtx) (cache : List (String × Bool)) (p : String)
    (h1 : allProbesFail ctx) (h2 : noTrueEntry cache) :
    (isValidGodotPath ctx cache p).valid = false ∧
    noTrueEntry (isValidGodotPath ctx cache p).cache := by
  unfold isValidGodotPath
  cases hl : cacheLookup cache p with
  | some b =>
    cases b with
    | true => exact absurd hl (h2 p)
    | false => exact ⟨rfl, h2⟩
  | none =>
    by_cases he : (p ≠ "godot" && !ctx.existsSync p) = true
    · rw [if_pos he]
      exact ⟨rfl, noTrue_append_false cache h2 p⟩
    · rw [if_neg he, if_neg (by simp [h1 p] : ¬ (ctx.versionProbeOk p = true))]
      exact ⟨rfl, noTrue_append_false cache h2 p⟩

/-- Under total probe failure the candidate loop finds nothing. -/
theorem tryGodotPaths_none (ctx : GodotCtx) (h1 : allProbesFail ctx) :
    ∀ (paths : List String) (cache : List (String × Bool)), noTrueEntry cache →
      (tryGodotPaths ctx cache paths).1 = none ∧
      noTrueEntry (tryGodotPaths ctx cache paths).2 := by
  intro paths
  induction paths with
  | nil => exact fun cache h2 => ⟨rfl, h2⟩
  | cons p rest ih =>
    intro cache h2
    obtain ⟨hv, hc⟩ := isValid_false ctx cache (normalize p) h1 h2
    have key : tryGodotPaths ctx cache (p :: rest) =
        tryGodotPaths ctx (isValidGodotPath ctx cache (normalize p)).cache rest := by
      simp [tryGodotPaths, hv]
    rw [key]
    exact ih _ hc

/-- Under total probe failure, every stage of detection falls through to the
strict error or the warned fallback. -/
theorem detectStep3_nofind (ctx : GodotCtx) (cache : List (String × Bool)) (strict : Bool)
    (h1 : allProbesFail ctx) (h2 : noTrueEntry cache) :
    (strict = true → detectStep3 ctx cache strict = Except.error toolNotFoundMsg) ∧
    (strict = false → ∃ c2, detectStep3 ctx cache strict =
        Except.ok (defaultGodotPath ctx.osKind, c2, true) ∧ noTrueEntry c2) := by
  obtain ⟨hnone, hc⟩ := tryGodotPaths_none ctx h1 (possibleGodotPaths ctx) cache h2
  unfold detectStep3
  cases htry : tryGodotPaths ctx cache (possibleGodotPaths ctx) with
  | mk found c2 =>
    rw [htry] at hnone hc
    subst hnone
    constructor
    · intro hs
      simp [hs]
    · intro hs
      exact ⟨c2, by simp [hs, normalize], hc⟩

/-- As `detectStep3_nofind`, one stage earlier. -/
theorem detectStep2_nofind (ctx : GodotCtx) (cache : List (String × Bool)) (strict : Bool)
    (h1 : allProbesFail ctx) (h2 : noTrueEntry cache) :
    (strict = true → detectStep2 ctx cache strict = Except.error toolNotFoundMsg) ∧
    (strict = false → ∃ c2, detectStep2 ctx cache strict =
        Except.ok (defaultGodotPath ctx.osKind, c2, true) ∧ noTrueEntry c2) := by
  unfold detectStep2
  cases henv : ctx.envGodotPath with
  | none => exact detectStep3_nofind ctx cache strict h1 h2
  | some e =>
    dsimp only
    by_cases he : e = ""
    · rw [if_neg (by simp [he])]
      exact detectStep3_nofind ctx cache strict h1 h2
    · obtain ⟨hv, hc⟩ := isValid_false ctx cache (normalize e) h1 h2
      rw [if_pos he]
      simp only [hv, Bool.false_eq_true, if_false]
      exact detectStep3_nofind ctx _ strict h1 hc

/-- C5.  When no candidate Godot executable validates (every probe fails and
nothing was ever cached valid): in strict mode detection fails with the
ToolNotFound error and startup exits; in non-strict mode detection resolves
the hard-coded platform default with the warning recorded and startup keeps
the process running on that default. -/
theorem C5_detection_fallback (ctx : GodotCtx) (godotPath : Option String)
    (cache : List (String × Bool)) (h1 : allProbesFail ctx) (h2 : noTrueEntry cache) :
    (detectGodotPath ctx godotPath cache true = Except.error toolNotFoundMsg ∧
     runStartup ctx godotPath cache true = StartupOutcome.exited 1) ∧
    ((∃ c2, detectGodotPath ctx godotPath cache false =
        Except.ok (defaultGodotPath ctx.osKind, c2, true)) ∧
     runStartup ctx godotPath cache false =
       StartupOutcome.running (defaultGodotPath ctx.osKind) true) := by
  have main : ∀ strict,
      (strict = true → detectGodotPath ctx godotPath cache strict =
        Except.error toolNotFoundMsg) ∧
      (strict = false → ∃ c2, detectGodotPath ctx godotPath cache strict =
        Except.ok (defaultGodotPath ctx.osKind, c2, true) ∧ noTrueEntry c2) := by
    intro strict
    unfold detectGodotPath
    by_cases hg : truthy godotPath = true
    · obtain ⟨hv, hc⟩ := isValid_false ctx cache (godotPath.getD "") h1 h2
      simp only [hg, if_true, hv, Bool.false_eq_true, if_false]
      exact detectStep2_nofind ctx _ strict h1 hc
    · simp only [Bool.not_eq_true] at hg
      simp only [hg, Bool.false_eq_true, if_false]
      exact detectStep2_nofind ctx cache strict h1 h2
  refine ⟨⟨(main true).1 rfl, ?_⟩, ?_⟩
  · unfold runStartup
    rw [(main true).1 rfl]
  · obtain ⟨c2, hok, hc2⟩ := (main false).2 rfl
    refine ⟨⟨c2, hok⟩, ?_⟩
    unfold runStartup
    rw [hok]
    obtain ⟨hv, _⟩ := isValid_false ctx c2 (defaultGodotPath ctx.osKind) h1 hc2
    simp [hv]

/-- C5 witness: on Linux with every probe failing and an empty cache, strict
startup exits with code 1 and non-strict startup keeps running on
`/usr/bin/godot` with the warning recorded. -/
theorem C5_detection_fallback_witness :
    (detectGodotPath ⟨fun _ => true, fun _ => false, OsKind.linux, none, "/h", "C:\\u"⟩
        none [] true = Except.error toolNotFoundMsg ∧
     runStartup ⟨fun _ => true, fun _ => false, OsKind.linux, none, "/h", "C:\\u"⟩
        none [] true = StartupOutcome.exited 1) ∧
    ((∃ c2, detectGodotPath ⟨fun _ => true, fun _ => false, OsKind.linux, none, "/h", "C:\\u"⟩
        none [] false = Except.ok ("/usr/bin/godot", c2, true)) ∧
     runStartup ⟨fun _ => true, fun _ => false, OsKind.linux, none, "/h", "C:\\u"⟩
        none [] false = StartupOutcome.running "/usr/bin/godot" true) :=
  C5_detection_fallback ⟨fun _ => true, fun _ => false, OsKind.linux, none, "/h", "C:\\u"⟩
    none [] (fun _ => rfl) (fun p h => by simp [cacheLookup] at h)

/-- C9.  A path cached invalid is answered `false` from the cache with no
external version probe and no cache change; validation of any other path
preserves that cached verdict (entries are appended, never overwritten); and
only a fresh configuration — whose `validatedPaths` map starts empty —
launches a probe for such a path again. -/
theorem C9_cached_invalid_path (ctx : GodotCtx) (cache : List (String × Bool)) (path : String)
    (h : cacheLookup cache path = some false) :
    isValidGodotPath ctx cache path = ⟨false, cache, []⟩ ∧
    (∀ other, cacheLookup (isValidGodotPath ctx cache other).cache path = some false) ∧
    (∀ p2, ctx.existsSync p2 = true →
      (isValidGodotPath ctx initialValidatedPaths p2).probes = [p2]) := by
  refine ⟨?_, ?_, ?_⟩
  · unfold isValidGodotPath
    rw [h]
  · intro other
    unfold isValidGodotPath
    cases ho : cacheLookup cache other with
    | some b => exact h
    | none =>
      have pres : ∀ x, cacheLookup (cache ++ [(other, x)]) path = some false := by
        intro x
        rw [cacheLookup_append, h]
      by_cases he : (other ≠ "godot" && !ctx.existsSync other) = true
      · rw [if_pos he]
        exact pres false
      · rw [if_neg he]
        by_cases hp : ctx.versionProbeOk other = true
        · rw [if_pos hp]
          exact pres true
        · rw [if_neg hp]
          exact pres false
  · intro p2 hex
    unfold isValidGodotPath initialValidatedPaths
    dsimp only [cacheLookup]
    have hcond : ¬ ((p2 ≠ "godot" && !ctx.existsSync p2) = true) := by simp [hex]
    rw [if_neg hcond]
    by_cases hp : ctx.versionProbeOk p2 = true
    · rw [if_pos hp]
    · rw [if_neg hp]

/-- C9 witness: with "bad" cached invalid, revalidating "bad" answers from
the cache with no probe, validating "other" keeps the verdict, and a fresh
configuration probes again. -/
theorem C9_cached_invalid_path_witness :
    isValidGodotPath ⟨fun _ => true, fun _ => false, OsKind.linux, none, "/h", "C:\\u"⟩
        [("bad", false)] "bad" = ⟨false, [("bad", false)], []⟩ ∧
    cacheLookup (isValidGodotPath ⟨fun _ => true, fun _ => false, OsKind.linux, none, "/h", "C:\\u"⟩
        [("bad", false)] "other").cache "bad" = some false ∧
    (isValidGodotPath ⟨fun _ => true, fun _ => false, OsKind.linux, none, "/h", "C:\\u"⟩
        initialValidatedPaths "probe").probes = ["probe"] :=
  ⟨(C9_cached_invalid_path ⟨fun _ => true, fun _ => false, OsKind.linux, none, "/h", "C:\\u"⟩
      [("bad", false)] "bad" (by decide)).1,
   (C9_cached_invalid_path ⟨fun _ => true, fun _ => false, OsKind.linux, none, "/h", "C:\\u"⟩
      [("bad", false)] "bad" (by decide)).2.1 "other",
   (C9_cached_invalid_path ⟨fun _ => true, fun _ => false, OsKind.linux, none, "/h", "C:\\u"⟩
      [("bad", false)] "bad" (by decide)).2.2 "probe" rfl⟩

/-! ## The process supervisor and `run_project`
(index.js lines 1307-1439)

The spawned child becomes a fresh process identifier; the stream listeners
and exit/error listeners become explicit events on the server state.  Line
buffers live in the `activeProcess` record exactly as in the source; a data
or exit event of a process that is no longer the active one only touches
arrays the server can no longer reach, which the embedding renders as a
no-op (the guard `this.activeProcess.process === process` becomes a process
identifier comparison). -/

/-- `activeProcess` (index.js line 31): the handle plus the two line
buffers. -/
structure ActiveProcess where
  pid : Nat
  output : List String
  errors : List String
  deriving Repr, DecidableEq

/-- Supervisor half of the server state: the optional active child and a
counter producing fresh process identifiers. -/
structure SupervisorState where
  activeProcess : Option ActiveProcess
  nextPid : Nat
  deriving Repr, DecidableEq

/-- The server state visible to `run_project` and its events. -/
structure ServerState where
  portal : PortalState
  supervisor : SupervisorState
  godotPath : Option String
  deriving Repr, DecidableEq

/-- Tool responses: success texts, the structured payloads of
`get_debug_output` and `stop_project` (JSON-serialised in the source, kept
structured here), and the error envelope of `createErrorResponse`
(message plus remediation suggestions, marked as an error). -/
inductive ToolResponse where
  | success : String → ToolResponse
  | debugOutput : List String → List String → ToolResponse
  | stopped : List String → List String → ToolResponse
  | createdProject : String → String → String → String → ToolResponse
  | exportedLevel : String → String → String → Option String → String → String → ToolResponse
  | errorResp : String → List String → ToolResponse
  deriving Repr, DecidableEq

/-- Whether a response is an error envelope (`isError: true` in the
source). -/
def isErrorResp : ToolResponse → Bool
  | ToolResponse.errorResp _ _ => true
  | _ => false

/-- The remediation list attached to traversal rejections. -/
def invalidPathSolutions : List String :=
  ["Provide a valid path without \"..\" or other potentially unsafe characters"]

/-- Arguments of `run_project` after parameter normalisation. -/
structure RunArgs where
  projectPath : Option String := none
  scene : Option String := none
  deriving Repr, DecidableEq

/-- Outcome of one `handleRunProject` call: the response, the new server
state, the processes killed, and — when a spawn happened — the fresh

process identifier with the command-line arguments passed to the child. -/
structure RunOutcome where
  response : ToolResponse
  state : ServerState
  killedPids : List Nat
  spawned : Option (Nat × List String)
  deriving Repr, DecidableEq

/-- `handleRunProject` (index.js lines 1307-1389): validate the explicit
project path, resolve the effective project path, check the manifest, kill
any existing child, build the command line (dropping an invalid `scene`
argument), and spawn the new child with fresh empty buffers. -/
def handleRunProject (ctx : NodeCtx) (cfg : Config) (env : Env) (st : ServerState)
    (args : RunArgs) : RunOutcome :=
  if truthy args.projectPath && !validatePath (args.projectPath.getD "") then
    ⟨ToolResponse.errorResp "Invalid project path" invalidPathSolutions, st, [], none⟩
  else
    match resolveProjectPath ctx cfg env st.portal args.projectPath with
    | (none, portal2) =>
      ⟨ToolResponse.errorResp "Project path is required"
        ["Provide a valid path to a Godot project directory",
         "Ensure the Battlefield Portal SDK is installed and detectable"],
       { st with portal := portal2 }, [], none⟩
    | (some projectPath, portal2) =>
      if !ctx.existsSync (pathJoin projectPath "project.godot") then
        ⟨ToolResponse.errorResp ("Not a valid Godot project: " ++ projectPath)
          ["Ensure the path points to a directory containing a project.godot file",
           "Use list_projects to find valid Godot projects"],
         { st with portal := portal2 }, [], none⟩
      else
        let killed := match st.supervisor.activeProcess with
          | some a => [a.pid]
          | none => []
        let cmdArgs := ["-d", "--path", projectPath] ++
          (if truthy args.scene && validatePath (args.scene.getD "") then
            [args.scene.getD ""] else [])
        match st.godotPath with
        | none =>
          ⟨ToolResponse.errorResp "Failed to run Godot project: spawn error"
            ["Ensure Godot is installed correctly",
             "Check if the GODOT_PATH environment variable is set correctly",
             "Verify the project path is accessible"],
           { st with portal := portal2 }, killed, none⟩
        | some _ =>
          let pid := st.supervisor.nextPid
          ⟨ToolResponse.success ("Godot project started in debug mode from " ++ projectPath ++
              ". Use get_debug_output to see output."),
           { st with
             portal := portal2
             supervisor := ⟨some ⟨pid, [], []⟩, pid + 1⟩ },
           killed, some (pid, cmdArgs)⟩

/-- The `exit` listener (index.js lines 1359-1364): clear `activeProcess`
only when the exiting process is still the active one. -/
def childExit (st : ServerState) (pid : Nat) : ServerState :=
  match st.supervisor.activeProcess with
  | some a =>
    if a.pid = pid then
      { st with supervisor := { st.supervisor with activeProcess := none } }
    else st
  | none => st

/-- The `error` listener (index.js lines 1365-1370): identical clearing
behaviour on a spawn-level error. -/
def childSpawnError (st : ServerState) (pid : Nat) : ServerState :=
  match st.supervisor.activeProcess with
  | some a =>
    if a.pid = pid then
      { st with supervisor := { st.supervisor with activeProcess := none } }
    else st
  | none => st

/-- The stdout `data` listener (index.js lines 1343-1350): append the split
lines to the buffers of the process they belong to; output of a process
that is no longer active lands in unreachable arrays. -/
def stdoutData (st : ServerState) (pid : Nat) (lines : List String) : ServerState :=
  match st.supervisor.activeProcess with
  | some a =>
    if a.pid = pid then
      { st with supervisor :=
        { st.supervisor with activeProcess := some ⟨a.pid, a.output ++ lines, a.errors⟩ } }
    else st
  | none => st

/-- The stderr `data` listener (index.js lines 1351-1358). -/
def stderrData (st : ServerState) (pid : Nat) (lines : List String) : ServerState :=
  match st.supervisor.activeProcess with
  | some a =>
    if a.pid = pid then
      { st with supervisor :=
        { st.supervisor with activeProcess := some ⟨a.pid, a.output, a.errors ++ lines⟩ } }
    else st
  | none => st

/-- `handleGetDebugOutput` (index.js lines 1393-1411): fail when no active
process, otherwise snapshot both buffers without mutating them. -/
def handleGetDebugOutput (st : ServerState) : ToolResponse :=
  match st.supervisor.activeProcess with
  | none => ToolResponse.errorResp "No active Godot process."
      ["Use run_project to start a Godot project first",
       "Check if the Godot process crashed unexpectedly"]
  | some a => ToolResponse.debugOutput a.output a.errors

/-- `handleStopProject` (index.js lines 1415-1439): fail when idle,
otherwise kill, capture the final buffers, and clear the record. -/
def handleStopProject (st : ServerState) : ToolResponse × ServerState × List Nat :=
  match st.supervisor.activeProcess with
  | none =>
    (ToolResponse.errorResp "No active Godot process to stop."
      ["Use run_project to start a Godot project first",
       "The process may have already terminated"], st, [])
  | some a =>
    (ToolResponse.stopped a.output a.errors,
     { st with supervisor := { st.supervisor with activeProcess := none } }, [a.pid])

/-- A path containing ".." is rejected by `validatePath` (and is in
particular non-empty). -/
theorem includes_dotdot_invalid (p : String) (h : jsIncludes p ".." = true) :
    validatePath p = false ∧ p ≠ "" := by
  have hne : p ≠ "" := by
    intro he
    subst he
    exact absurd h (by decide)
  refine ⟨?_, hne⟩
  unfold validatePath
  rw [if_neg hne, if_pos h]

/-- `handleRunProject` on a well-formed explicit project path with a set
Godot path: the existing child (if any) is killed, a fresh child with empty
buffers becomes the single active process, and the scene argument is kept
only when it passes `validatePath`. -/
theorem handleRunProject_success (ctx : NodeCtx) (cfg : Config) (env : Env)
    (st : ServerState) (p : String) (scene : Option String) (g : String)
    (hpne : p ≠ "") (hval : validatePath p = true)
    (hfs : ctx.existsSync (pathJoin p "project.godot") = true)
    (hg : st.godotPath = some g) :
    handleRunProject ctx cfg env st ⟨some p, scene⟩ =
      ⟨ToolResponse.success ("Godot project started in debug mode from " ++ p ++
          ". Use get_debug_output to see output."),
       { st with supervisor := ⟨some ⟨st.supervisor.nextPid, [], []⟩,
           st.supervisor.nextPid + 1⟩ },
       (match st.supervisor.activeProcess with | some a => [a.pid] | none => []),
       some (st.supervisor.nextPid, ["-d", "--path", p] ++
         (if truthy scene && validatePath (scene.getD "") then [scene.getD ""] else []))⟩ := by
  have htr : truthy (some p) = true := by simp [truthy, hpne]
  have hres : resolveProjectPath ctx cfg env st.portal (some p) = (some p, st.portal) := by
    simp [resolveProjectPath, htr, normalize]
  unfold handleRunProject
  simp only [Option.getD_some, htr, hval, Bool.not_true, Bool.and_false, Bool.false_eq_true,
    if_false]
  rw [hres]
  simp only [hfs, Bool.not_true, Bool.false_eq_true, if_false]
  rw [hg]

/-- C1, counterexample.  Start a child, receive a stdout line, then let the
child exit on its own: `poll` before the exit returns the buffers, but the
exit listener clears the whole record — buffers included — so the very next
`get_debug_output` fails with the NoActiveProcess error instead of returning
the retained snapshot the claim promises. -/
theorem C1_exit_retention_counterexample :
    handleGetDebugOutput (stdoutData
        (handleRunProject ⟨fun _ => true, "cwd", "dir"⟩ ⟨none, none, none⟩ ⟨none, none, none⟩
          ⟨⟨none, none, none⟩, ⟨none, 0⟩, some "godot"⟩ ⟨some "proj", none⟩).state
        0 ["hello", ""]) = ToolResponse.debugOutput ["hello", ""] [] ∧
    handleGetDebugOutput (childExit (stdoutData
        (handleRunProject ⟨fun _ => true, "cwd", "dir"⟩ ⟨none, none, none⟩ ⟨none, none, none⟩
          ⟨⟨none, none, none⟩, ⟨none, 0⟩, some "godot"⟩ ⟨some "proj", none⟩).state
        0 ["hello", ""]) 0) =
      ToolResponse.errorResp "No active Godot process."
        ["Use run_project to start a Godot project first",
         "Check if the Godot process crashed unexpectedly"] := by
  constructor <;> rfl

/-- C1, amended.  When the supervised child exits on its own (or fails at
spawn), the exit listener clears the entire active-process record, output
buffers included; a subsequent `get_debug_output` therefore fails with the
NoActiveProcess error — no output snapshot is retained for a later read. -/
theorem C1_exit_discards_output (st : ServerState) (a : ActiveProcess)
    (h : st.supervisor.activeProcess = some a) :
    (childExit st a.pid).supervisor.activeProcess = none ∧
    (childSpawnError st a.pid).supervisor.activeProcess = none ∧
    handleGetDebugOutput (childExit st a.pid) =
      ToolResponse.errorResp "No active Godot process."
        ["Use run_project to start a Godot project first",
         "Check if the Godot process crashed unexpectedly"] := by
  have hc : childExit st a.pid =
      { st with supervisor := { st.supervisor with activeProcess := none } } := by
    unfold childExit
    rw [h]
    simp
  have he : childSpawnError st a.pid =
      { st with supervisor := { st.supervisor with activeProcess := none } } := by
    unfold childSpawnError
    rw [h]
    simp
  rw [hc, he]
  exact ⟨rfl, rfl, rfl⟩

/-- C1 witness: the amended statement at a concrete running state. -/
theorem C1_exit_discards_output_witness :
    (childExit ⟨⟨none, none, none⟩, ⟨some ⟨5, ["x"], ["y"]⟩, 6⟩, some "g"⟩
        5).supervisor.activeProcess = none ∧
    handleGetDebugOutput (childExit ⟨⟨none, none, none⟩, ⟨some ⟨5, ["x"], ["y"]⟩, 6⟩, some "g"⟩ 5) =
      ToolResponse.errorResp "No active Godot process."
        ["Use run_project to start a Godot project first",
         "Check if the Godot process crashed unexpectedly"] :=
  ⟨(C1_exit_discards_output ⟨⟨none, none, none⟩, ⟨some ⟨5, ["x"], ["y"]⟩, 6⟩, some "g"⟩
      ⟨5, ["x"], ["y"]⟩ rfl).1,
   (C1_exit_discards_output ⟨⟨none, none, none⟩, ⟨some ⟨5, ["x"], ["y"]⟩, 6⟩, some "g"⟩
      ⟨5, ["x"], ["y"]⟩ rfl).2.2⟩

/-- C4.  At most one supervised child exists (the state holds an optional
single record): starting a second run while one is active kills the first
and installs a fresh child with empty buffers; afterwards `poll` reflects
only the second child's output, the first child's late data events change
nothing, and the first child's exit event does not clear the second child's
buffers. -/
theorem C4_single_active_child (ctx : NodeCtx) (cfg : Config) (env : Env)
    (st : ServerState) (p g : String) (a : ActiveProcess)
    (hact : st.supervisor.activeProcess = some a)
    (hfresh : a.pid ≠ st.supervisor.nextPid)
    (hpne : p ≠ "") (hval : validatePath p = true)
    (hfs : ctx.existsSync (pathJoin p "project.godot") = true)
    (hg : st.godotPath = some g) :
    (handleRunProject ctx cfg env st ⟨some p, none⟩).killedPids = [a.pid] ∧
    (handleRunProject ctx cfg env st ⟨some p, none⟩).state.supervisor.activeProcess =
      some ⟨st.supervisor.nextPid, [], []⟩ ∧
    (∀ ls, stdoutData (handleRunProject ctx cfg env st ⟨some p, none⟩).state a.pid ls =
      (handleRunProject ctx cfg env st ⟨some p, none⟩).state) ∧
    (∀ ls, handleGetDebugOutput (childExit
        (stdoutData (handleRunProject ctx cfg env st ⟨some p, none⟩).state
          st.supervisor.nextPid ls) a.pid) = ToolResponse.debugOutput ls []) := by
  have hrun := handleRunProject_success ctx cfg env st p none g hpne hval hfs hg
  have hne2 : ¬ (st.supervisor.nextPid = a.pid) := fun hh => hfresh hh.symm
  rw [hrun]
  refine ⟨by rw [hact], rfl, ?_, ?_⟩
  · intro ls
    simp [stdoutData, hne2]
  · intro ls
    simp [stdoutData, childExit, handleGetDebugOutput, hne2]

/-- C4 witness: the theorem at a concrete state holding child 0 with
buffered output, starting a second run that becomes child 1. -/
theorem C4_single_active_child_witness :
    (handleRunProject ⟨fun _ => true, "cwd", "dir"⟩ ⟨none, none, none⟩ ⟨none, none, none⟩
        ⟨⟨none, none, none⟩, ⟨some ⟨0, ["old"], []⟩, 1⟩, some "godot"⟩
        ⟨some "proj", none⟩).killedPids = [0] ∧
    (∀ ls, handleGetDebugOutput (childExit
        (stdoutData (handleRunProject ⟨fun _ => true, "cwd", "dir"⟩ ⟨none, none, none⟩
          ⟨none, none, none⟩ ⟨⟨none, none, none⟩, ⟨some ⟨0, ["old"], []⟩, 1⟩, some "godot"⟩
          ⟨some "proj", none⟩).state 1 ls) 0) = ToolResponse.debugOutput ls []) :=
  ⟨(C4_single_active_child ⟨fun _ => true, "cwd", "dir"⟩ ⟨none, none, none⟩ ⟨none, none, none⟩
      ⟨⟨none, none, none⟩, ⟨some ⟨0, ["old"], []⟩, 1⟩, some "godot"⟩ "proj" "godot"
      ⟨0, ["old"], []⟩ rfl (by decide) (by decide) (by decide) rfl rfl).1,
   (C4_single_active_child ⟨fun _ => true, "cwd", "dir"⟩ ⟨none, none, none⟩ ⟨none, none, none⟩
      ⟨⟨none, none, none⟩, ⟨some ⟨0, ["old"], []⟩, 1⟩, some "godot"⟩ "proj" "godot"
      ⟨0, ["old"], []⟩ rfl (by decide) (by decide) (by decide) rfl rfl).2.2.2⟩

/-! ## `create_portal_project` (index.js lines 2370-2439)

The Python converter run becomes an oracle mapping the script path and its
arguments to an exit code with captured stdout/stderr (interpreter
resolution, `ensurePythonCommand`, is folded into the oracle; a spawn-level
rejection takes the catch branch, which also performs no state update).
`mkdirSync` calls are recorded in the outcome so that filesystem writes with
unvalidated paths are observable. -/

/-- JavaScript whitespace accepted by `String.prototype.trim`. -/
def isJsSpace (c : Char) : Bool :=
  c = ' ' || c = Char.ofNat 9 || c = Char.ofNat 10 || c = Char.ofNat 13

/-- JavaScript `s.trim()`. -/
def jsTrim (s : String) : String :=
  String.mk (((s.data.dropWhile isJsSpace).reverse.dropWhile isJsSpace).reverse)

/-- The `typeof v === string && v.trim()` guard used for optional path
arguments. -/
def truthyTrim : Option String → Bool
  | none => false
  | some s => jsTrim s ≠ ""

/-- The Python-script oracle: script path and positional arguments map to
exit code, stdout and stderr. -/
structure PyCtx where
  pythonRun : String → List String → Nat × String × String

/-- Arguments of `create_portal_project` after parameter normalisation. -/
structure CreateArgs where
  fbExportDataPath : Option String := none
  outputDir : Option String := none
  overwriteLevels : Option Bool := none
  deriving Repr, DecidableEq

/-- Outcome of one `handleCreatePortalProject` call: the response, the new
Portal path state, and every directory passed to `mkdirSync`. -/
structure CreateOutcome where
  response : ToolResponse
  portal : PortalState
  mkdirCalls : List String
  deriving Repr, DecidableEq

/-- `getGdConverterScriptPath` (index.js lines 426-436): re-detect the
Portal paths, then require the converter script to exist under the SDK. -/
def getGdConverterScriptPath (ctx : NodeCtx) (cfg : Config) (env : Env)
    (st : PortalState) (scriptName : String) : Option String × PortalState :=
  let st1 := detectPortalPaths ctx cfg env st
  if truthy st1.portalSdkPath then
    let sdk := st1.portalSdkPath.getD ""
    let scriptPath := pathJoin (pathJoin (pathJoin (pathJoin (pathJoin
      (pathJoin sdk "SDK") "deps") "gdconverter") "src") "gdconverter") scriptName
    if ctx.existsSync scriptPath then (some (normalize scriptPath), st1) else (none, st1)
  else (none, st1)

/-- `handleCreatePortalProject` (index.js lines 2370-2439): re-detect paths,
resolve the FbExportData directory (argument over detected state), choose
the output directory (argument > remembered project path > SDK-derived
default > cwd default), create it, locate `create_godot.py`, run it, and on
exit code 0 remember the output directory as the Portal project path.  The
success payload carries the new project path, the FbExportData path, and the
trimmed stdout/stderr. -/
def handleCreatePortalProject (ctx : NodeCtx) (cfg : Config) (env : Env) (py : PyCtx)
    (st : PortalState) (args : CreateArgs) : CreateOutcome :=
  let st1 := detectPortalPaths ctx cfg env st
  let fbExportDataPath : Option String :=
    if truthyTrim args.fbExportDataPath then some (normalize (args.fbExportDataPath.getD ""))
    else st1.fbExportDataPath
  if !truthy fbExportDataPath || !ctx.existsSync (fbExportDataPath.getD "") then
    ⟨ToolResponse.errorResp "FbExportData path not found"
      ["Install or extract the Battlefield Portal SDK assets",
       "Provide fbExportDataPath pointing to SDK/deps/FbExportData"], st1, []⟩
  else
    let outputDir :=
      if truthyTrim args.outputDir then normalize (args.outputDir.getD "")
      else if truthy st1.portalProjectPath then st1.portalProjectPath.getD ""
      else if truthy st1.portalSdkPath then
        normalize (pathJoin (st1.portalSdkPath.getD "") "GodotProject")
      else normalize (pathJoin ctx.cwd "PortalGodotProject")
    match getGdConverterScriptPath ctx cfg env st1 "create_godot.py" with
    | (none, st2) =>
      ⟨ToolResponse.errorResp "Could not locate create_godot.py in the Battlefield Portal SDK"
        ["Verify the Portal SDK repository is available",
         "Set PORTAL_SDK_PATH to the SDK root"], st2, [outputDir]⟩
    | (some converterScript, st2) =>
      let scriptArgs := [fbExportDataPath.getD "", outputDir] ++
        (if args.overwriteLevels = some true then ["--overwrite-levels"] else [])
      let result := py.pythonRun converterScript scriptArgs
      if result.1 ≠ 0 then
        ⟨ToolResponse.errorResp
          ("Portal project generation failed with exit code " ++ toString result.1)
          ["Inspect the stdout/stderr output for details",
           "Ensure Python dependencies from SDK/requirements.txt are installed"],
         st2, [outputDir]⟩
      else
        ⟨ToolResponse.createdProject (normalize outputDir) (fbExportDataPath.getD "")
          (jsTrim result.2.1) (jsTrim result.2.2),
         { st2 with portalProjectPath := some (normalize outputDir) }, [outputDir]⟩

/-! ## `export_portal_level` (index.js lines 2278-2366)

This handler validates `scenePath` and `outputDir` with `validatePath` but
passes `projectPath` and `fbExportDataPath` through unvalidated.  It reuses
the detection, converter-lookup and Python oracles above. -/

/-- JavaScript `s.startsWith(pre)`. -/
def strStartsWith (s pre : String) : Bool := seqLeads pre.data s.data

/-- `isAbsolutePath` (index.js lines 187-192): POSIX root, a `res://`
resource path, or a Windows drive prefix (ASCII letter, colon,
slash-or-backslash). -/
def isAbsolutePath (path : String) : Bool :=
  if path = "" then false
  else
    strStartsWith path "/" || strStartsWith path "res://" ||
      (match path.data with
       | a :: b :: c :: _ => a.isAlpha && b = Char.ofNat 58 && (c = slash || c = bs)
       | _ => false)

/-- `toAbsolutePath` (index.js lines 196-208).  The JavaScript
`targetPath.replace(res-prefix, empty)` removes the first occurrence of the
prefix, which under the preceding `startsWith` test is exactly the leading
six characters. -/
def toAbsolutePath (basePath targetPath : String) : String :=
  if targetPath = "" then targetPath
  else if strStartsWith targetPath "res://" then
    normalize (pathJoin basePath (String.mk (targetPath.data.drop 6)))
  else if isAbsolutePath targetPath then normalize targetPath
  else normalize (pathJoin basePath targetPath)

/-- Splitting on the JavaScript regex carriage-return?-newline: each newline
separates lines, consuming one carriage return immediately before it. -/
def splitLinesAux : List Char → List Char → List (List Char)
  | [], acc => [acc.reverse]
  | c :: cs, acc =>
    if c = Char.ofNat 10 then acc.reverse :: splitLinesAux cs []
    else if c = Char.ofNat 13 then
      match cs with
      | d :: ds =>
        if d = Char.ofNat 10 then acc.reverse :: splitLinesAux ds []
        else splitLinesAux (d :: ds) (c :: acc)
      | [] => [(c :: acc).reverse]
    else splitLinesAux cs (c :: acc)

/-- JavaScript `s.split` on the carriage-return?-newline regex. -/
def splitLines (s : String) : List String :=
  (splitLinesAux s.data []).map String.mk

/-- Arguments of `export_portal_level` after parameter normalisation. -/
structure ExportArgs where
  scenePath : Option String := none
  outputDir : Option String := none
  projectPath : Option String := none
  fbExportDataPath : Option String := none
  deriving Repr, DecidableEq

/-- `handleExportPortalLevel` (index.js lines 2278-2366): require and
validate `scenePath`, validate a supplied `outputDir`, resolve the project
path (no validation), resolve the FbExportData path (no validation), locate
`export_tscn.py`, resolve the scene file and output directory against the
project, create the output directory, run the converter, and report the
exported file (the last non-blank stdout line). -/
def handleExportPortalLevel (ctx : NodeCtx) (cfg : Config) (env : Env) (py : PyCtx)
    (st : PortalState) (args : ExportArgs) : CreateOutcome :=
  if !truthy args.scenePath then
    ⟨ToolResponse.errorResp "Scene path is required"
      ["Provide the path to the scene (.tscn) file to export"], st, []⟩
  else if !validatePath (args.scenePath.getD "") then
    ⟨ToolResponse.errorResp "Invalid scene path"
      ["Provide a scene path without \"..\" or other potentially unsafe characters"], st, []⟩
  else if truthy args.outputDir && !validatePath (args.outputDir.getD "") then
    ⟨ToolResponse.errorResp "Invalid output directory"
      ["Provide an output directory without \"..\" or other potentially unsafe characters"],
     st, []⟩
  else
    match resolveProjectPath ctx cfg env st args.projectPath with
    | (none, st1) =>
      ⟨ToolResponse.errorResp "Project path is required"
        ["Provide a valid path to the Battlefield Portal Godot project",
         "Ensure the Portal SDK has been detected correctly"], st1, []⟩
    | (some projectPath, st1) =>
      let fbExportDataPath : Option String :=
        if truthyTrim args.fbExportDataPath then
          some (normalize (args.fbExportDataPath.getD ""))
        else st1.fbExportDataPath
      if !truthy fbExportDataPath || !ctx.existsSync (fbExportDataPath.getD "") then
        ⟨ToolResponse.errorResp "FbExportData path not found"
          ["Install or extract the Battlefield Portal SDK assets",
           "Provide fbExportDataPath pointing to SDK/deps/FbExportData"], st1, []⟩
      else
        match getGdConverterScriptPath ctx cfg env st1 "export_tscn.py" with
        | (none, st2) =>
          ⟨ToolResponse.errorResp
            "Could not locate export_tscn.py in the Battlefield Portal SDK"
            ["Verify the Portal SDK repository is available",
             "Set PORTAL_SDK_PATH to the SDK root"], st2, []⟩
        | (some converterScript, st2) =>
          let sceneFile := toAbsolutePath projectPath (args.scenePath.getD "")
          if !ctx.existsSync sceneFile then
            ⟨ToolResponse.errorResp ("Scene file does not exist: " ++ sceneFile)
              ["Ensure the scene path is correct relative to the project",
               "Open the scene in Godot to verify it exists"], st2, []⟩
          else
            let outputDir :=
              if truthyTrim args.outputDir then
                toAbsolutePath projectPath (args.outputDir.getD "")
              else pathJoin projectPath "portal_exports"
            let result := py.pythonRun converterScript
              [sceneFile, fbExportDataPath.getD "", outputDir]
            if result.1 ≠ 0 then
              ⟨ToolResponse.errorResp
                ("Portal export script failed with exit code " ++ toString result.1)
                ["Inspect the stdout/stderr output for details",
                 "Verify the scene and FbExportData paths are correct"], st2, [outputDir]⟩
            else
              let trimmedStdout := jsTrim result.2.1
              let trimmedStderr := jsTrim result.2.2
              let lines := (splitLines trimmedStdout).filter (fun l => jsTrim l ≠ "")
              let exportedFile :=
                match lines.getLast? with
                | some l => some (normalize l)
                | none => none
              ⟨ToolResponse.exportedLevel (normalize sceneFile) (fbExportDataPath.getD "")
                (normalize outputDir) exportedFile trimmedStdout trimmedStderr,
               st2, [outputDir]⟩

/-- C2, counterexample.  The path-like fields `fbExportDataPath` and
`outputDir` of `create_portal_project` and the `projectPath` of
`export_portal_level` are never validated: with leading parent-directory
traversals in them (a form Node `path.normalize` leaves unchanged) neither
call returns an InvalidPath envelope — both succeed, and `mkdirSync`
receives the traversal-bearing output directory in each case. -/
theorem C2_unvalidated_field_counterexample :
    jsIncludes "../fb" ".." = true ∧
    jsIncludes "../evil" ".." = true ∧
    (handleCreatePortalProject ⟨fun _ => true, "cwd", "dir"⟩ ⟨none, none, none⟩
        ⟨none, none, none⟩ ⟨fun _ _ => (0, "", "")⟩ ⟨none, none, none⟩
        ⟨some "../fb", some "../evil", none⟩).mkdirCalls = ["../evil"] ∧
    isErrorResp (handleCreatePortalProject ⟨fun _ => true, "cwd", "dir"⟩ ⟨none, none, none⟩
        ⟨none, none, none⟩ ⟨fun _ _ => (0, "", "")⟩ ⟨none, none, none⟩
        ⟨some "../fb", some "../evil", none⟩).response = false ∧
    jsIncludes "../p" ".." = true ∧
    isErrorResp (handleExportPortalLevel ⟨fun _ => true, "cwd", "dir"⟩ ⟨none, none, none⟩
        ⟨none, none, none⟩ ⟨fun _ _ => (0, "out", "")⟩ ⟨none, none, none⟩
        ⟨some "scene.tscn", none, some "../p", some "fb"⟩).response = false ∧
    (handleExportPortalLevel ⟨fun _ => true, "cwd", "dir"⟩ ⟨none, none, none⟩
        ⟨none, none, none⟩ ⟨fun _ _ => (0, "out", "")⟩ ⟨none, none, none⟩
        ⟨some "scene.tscn", none, some "../p", some "fb"⟩).mkdirCalls =
      ["../p/portal_exports"] :=
  ⟨by decide, by decide, rfl, rfl, by decide, rfl, rfl⟩

/-- C2, amended.  Fields the handlers route through `validatePath` are
rejected with the Invalid-path envelope before any filesystem access, shown
here for every filesystem/context oracle: `run_project` rejects a
projectPath containing "..", and `export_portal_level` rejects a scenePath
or outputDir containing "..", each leaving the state untouched.
`run_project`'s `scene`, however, is not rejected: a scene containing ".."
is silently dropped from the spawn command line while the call still
succeeds. -/
theorem C2_traversal_guard (p s : String)
    (hp : jsIncludes p ".." = true) (hs : jsIncludes s ".." = true) :
    validatePath p = false ∧
    (∀ (ctx : NodeCtx) (cfg : Config) (env : Env) (st : ServerState) (args : RunArgs),
      args.projectPath = some p →
      handleRunProject ctx cfg env st args =
        ⟨ToolResponse.errorResp "Invalid project path" invalidPathSolutions, st, [], none⟩) ∧
    (∀ (ctx : NodeCtx) (cfg : Config) (env : Env) (py : PyCtx) (st : PortalState)
       (args : ExportArgs), args.scenePath = some p →
      handleExportPortalLevel ctx cfg env py st args =
        ⟨ToolResponse.errorResp "Invalid scene path"
          ["Provide a scene path without \"..\" or other potentially unsafe characters"],
         st, []⟩) ∧
    (∀ (ctx : NodeCtx) (cfg : Config) (env : Env) (py : PyCtx) (st : PortalState)
       (q : String) (pp fb : Option String), q ≠ "" → validatePath q = true →
      handleExportPortalLevel ctx cfg env py st ⟨some q, some s, pp, fb⟩ =
        ⟨ToolResponse.errorResp "Invalid output directory"
          ["Provide an output directory without \"..\" or other potentially unsafe characters"],
         st, []⟩) ∧
    (∀ (ctx : NodeCtx) (cfg : Config) (env : Env) (st : ServerState) (q g : String),
      q ≠ "" → validatePath q = true →
      ctx.existsSync (pathJoin q "project.godot") = true → st.godotPath = some g →
      (handleRunProject ctx cfg env st ⟨some q, some s⟩).spawned =
        some (st.supervisor.nextPid, ["-d", "--path", q]) ∧
      (handleRunProject ctx cfg env st ⟨some q, some s⟩).response =
        ToolResponse.success ("Godot project started in debug mode from " ++ q ++
          ". Use get_debug_output to see output.")) := by
  obtain ⟨hv, hne⟩ := includes_dotdot_invalid p hp
  obtain ⟨hvs, hnes⟩ := includes_dotdot_invalid s hs
  have htr : truthy (some p) = true := by simp [truthy, hne]
  have htrs : truthy (some s) = true := by simp [truthy, hnes]
  refine ⟨hv, ?_, ?_, ?_, ?_⟩
  · intro ctx cfg env st args hargs
    unfold handleRunProject
    rw [hargs]
    simp only [htr, Option.getD_some, hv, Bool.not_false, Bool.and_true, if_true]
  · intro ctx cfg env py st args hargs
    unfold handleExportPortalLevel
    rw [hargs]
    simp only [htr, Option.getD_some, hv, Bool.not_true, Bool.false_eq_true, if_false,
      Bool.not_false, if_true]
  · intro ctx cfg env py st q pp fb hqne hqval
    have htq : truthy (some q) = true := by simp [truthy, hqne]
    unfold handleExportPortalLevel
    simp only [htq, Option.getD_some, hqval, Bool.not_true, Bool.false_eq_true, if_false,
      htrs, hvs, Bool.not_false, Bool.and_true, if_true]
  · intro ctx cfg env st q g hqne hqval hqfs hqg
    rw [handleRunProject_success ctx cfg env st q (some s) g hqne hqval hqfs hqg]
    constructor
    · simp [hvs]
    · rfl

/-- C2 witness: the guard theorem at the leading traversal paths "../x" and
"../y", with concrete well-formed runs beside them. -/
theorem C2_traversal_guard_witness :
    validatePath "../x" = false ∧
    handleRunProject ⟨fun _ => true, "cwd", "dir"⟩ ⟨none, none, none⟩ ⟨none, none, none⟩
        ⟨⟨none, none, none⟩, ⟨none, 0⟩, some "g"⟩ ⟨some "../x", none⟩ =
      ⟨ToolResponse.errorResp "Invalid project path" invalidPathSolutions,
       ⟨⟨none, none, none⟩, ⟨none, 0⟩, some "g"⟩, [], none⟩ ∧
    handleExportPortalLevel ⟨fun _ => true, "cwd", "dir"⟩ ⟨none, none, none⟩
        ⟨none, none, none⟩ ⟨fun _ _ => (0, "", "")⟩ ⟨none, none, none⟩
        ⟨some "../x", none, none, none⟩ =
      ⟨ToolResponse.errorResp "Invalid scene path"
        ["Provide a scene path without \"..\" or other potentially unsafe characters"],
       ⟨none, none, none⟩, []⟩ ∧
    handleExportPortalLevel ⟨fun _ => true, "cwd", "dir"⟩ ⟨none, none, none⟩
        ⟨none, none, none⟩ ⟨fun _ _ => (0, "", "")⟩ ⟨none, none, none⟩
        ⟨some "scene.tscn", some "../y", none, none⟩ =
      ⟨ToolResponse.errorResp "Invalid output directory"
        ["Provide an output directory without \"..\" or other potentially unsafe characters"],
       ⟨none, none, none⟩, []⟩ ∧
    (handleRunProject ⟨fun _ => true, "cwd", "dir"⟩ ⟨none, none, none⟩ ⟨none, none, none⟩
        ⟨⟨none, none, none⟩, ⟨none, 0⟩, some "g"⟩ ⟨some "proj", some "../y"⟩).spawned =
      some (0, ["-d", "--path", "proj"]) :=
  ⟨(C2_traversal_guard "../x" "../y" (by decide) (by decide)).1,
   (C2_traversal_guard "../x" "../y" (by decide) (by decide)).2.1
     ⟨fun _ => true, "cwd", "dir"⟩ ⟨none, none, none⟩ ⟨none, none, none⟩
     ⟨⟨none, none, none⟩, ⟨none, 0⟩, some "g"⟩ ⟨some "../x", none⟩ rfl,
   (C2_traversal_guard "../x" "../y" (by decide) (by decide)).2.2.1
     ⟨fun _ => true, "cwd", "dir"⟩ ⟨none, none, none⟩ ⟨none, none, none⟩
     ⟨fun _ _ => (0, "", "")⟩ ⟨none, none, none⟩ ⟨some "../x", none, none, none⟩ rfl,
   (C2_traversal_guard "../x" "../y" (by decide) (by decide)).2.2.2.1
     ⟨fun _ => true, "cwd", "dir"⟩ ⟨none, none, none⟩ ⟨none, none, none⟩
     ⟨fun _ _ => (0, "", "")⟩ ⟨none, none, none⟩ "scene.tscn" none none
     (by decide) (by decide),
   ((C2_traversal_guard "../x" "../y" (by decide) (by decide)).2.2.2.2
     ⟨fun _ => true, "cwd", "dir"⟩ ⟨none, none, none⟩ ⟨none, none, none⟩
     ⟨⟨none, none, none⟩, ⟨none, 0⟩, some "g"⟩ "proj" "g"
     (by decide) (by decide) rfl rfl).1⟩

/-- A truthily-set project path survives a `detectPortalPaths` pass: every
assignment to it is guarded by its absence. -/
theorem detectPortalPaths_proj (ctx : NodeCtx) (cfg : Config) (env : Env) (st : PortalState)
    (h : truthy st.portalProjectPath = true) :
    (detectPortalPaths ctx cfg env st).portalProjectPath = st.portalProjectPath := by
  have h1 : (applyProjectOverride cfg env st).portalProjectPath = st.portalProjectPath := by
    simp [applyProjectOverride, h]
  simp only [detectPortalPaths]
  rw [finalNorm_id]
  have h2 := applyFbOverride_proj cfg env (applyProjectOverride cfg env st)
  rw [h1] at h2
  rw [deriveFromSdk_proj, selectSdkRoot_proj, h2]
  rw [selectSdkRoot_proj, h2, h]

/-- The second component of `getGdConverterScriptPath` is always the
re-detected Portal state. -/
theorem getGdConverterScriptPath_snd (ctx : NodeCtx) (cfg : Config) (env : Env)
    (st : PortalState) (scriptName : String) :
    (getGdConverterScriptPath ctx cfg env st scriptName).2 =
      detectPortalPaths ctx cfg env st := by
  simp only [getGdConverterScriptPath]
  split
  · split <;> rfl
  · rfl

/-- C10, counterexample.  The claim says a failing call leaves the
remembered Portal project path unchanged, but the initial
`detectPortalPaths()` pass inside `handleCreatePortalProject` runs before
any precondition check: with `PORTAL_PROJECT_PATH` set and no remembered
path, a call that then fails with the FbExportData precondition error still
changes the remembered path from null to the environment value. -/
theorem C10_failure_mutation_counterexample :
    isErrorResp (handleCreatePortalProject ⟨fun _ => false, "cwd", "dir"⟩ ⟨none, none, none⟩
        ⟨none, some "envproj", none⟩ ⟨fun _ _ => (1, "", "")⟩ ⟨none, none, none⟩
        ⟨none, none, none⟩).response = true ∧
    (handleCreatePortalProject ⟨fun _ => false, "cwd", "dir"⟩ ⟨none, none, none⟩
        ⟨none, some "envproj", none⟩ ⟨fun _ _ => (1, "", "")⟩ ⟨none, none, none⟩
        ⟨none, none, none⟩).portal.portalProjectPath = some "envproj" ∧
    (⟨none, none, none⟩ : PortalState).portalProjectPath = none :=
  ⟨rfl, rfl, rfl⟩

/-- C10, amended.  A successful `create_portal_project` call (converter exit
code 0) overwrites the remembered Portal project path with the chosen output
directory, so a subsequent operation without an explicit projectPath
resolves to that directory; on converter failure or a precondition error no
assignment of the output directory happens, and a previously-set (non-empty)
remembered path survives unchanged — the failing call may only fill a
previously-unset path through its initial auto-detection pass. -/
theorem C10_create_project_remembers (ctx : NodeCtx) (cfg : Config) (env : Env) (py : PyCtx)
    (st : PortalState) (args : CreateArgs) (outDir prev : String)
    (hout : args.outputDir = some outDir) (htrim : jsTrim outDir ≠ "") :
    (isErrorResp (handleCreatePortalProject ctx cfg env py st args).response = false →
      (handleCreatePortalProject ctx cfg env py st args).portal.portalProjectPath =
        some outDir ∧
      (resolveProjectPath ctx cfg env
        (handleCreatePortalProject ctx cfg env py st args).portal none).1 = some outDir) ∧
    (st.portalProjectPath = some prev → prev ≠ "" →
      isErrorResp (handleCreatePortalProject ctx cfg env py st args).response = true →
      (handleCreatePortalProject ctx cfg env py st args).portal.portalProjectPath =
        some prev) := by
  have houtne : outDir ≠ "" := fun hhe => htrim (by rw [hhe]; rfl)
  have htt : truthyTrim (some outDir) = true := by simp [truthyTrim, htrim]
  have hpres : ∀ s2 : PortalState, s2.portalProjectPath = some prev → prev ≠ "" →
      (detectPortalPaths ctx cfg env s2).portalProjectPath = some prev := by
    intro s2 hs2 hprevne
    rw [detectPortalPaths_proj ctx cfg env s2 (by rw [hs2]; simp [truthy, hprevne]), hs2]
  have hresolve : ∀ s2 : PortalState, s2.portalProjectPath = some outDir →
      (resolveProjectPath ctx cfg env s2 none).1 = some outDir := by
    intro s2 hs2
    have hdet : (detectPortalPaths ctx cfg env s2).portalProjectPath = some outDir := by
      rw [detectPortalPaths_proj ctx cfg env s2 (by rw [hs2]; simp [truthy, houtne]), hs2]
    simp [resolveProjectPath, truthy_none, hdet, truthy, houtne]
  simp only [handleCreatePortalProject, hout, htt, if_true, Option.getD_some]
  generalize (if truthyTrim args.fbExportDataPath = true then
      some (normalize (args.fbExportDataPath.getD ""))
    else (detectPortalPaths ctx cfg env st).fbExportDataPath) = fbv
  split
  · -- FbExportData precondition error: portal is the first detection pass
    refine ⟨fun hfalse => absurd hfalse (by simp [isErrorResp]), ?_⟩
    intro hprev hprevne _
    exact hpres st hprev hprevne
  · split
    · -- converter script missing: portal is the second detection pass
      next st2 heq =>
        have hsnd : st2 =
            detectPortalPaths ctx cfg env (detectPortalPaths ctx cfg env st) := by
          have hbase := getGdConverterScriptPath_snd ctx cfg env
            (detectPortalPaths ctx cfg env st) "create_godot.py"
          rw [heq] at hbase
          simpa using hbase
        refine ⟨fun hfalse => absurd hfalse (by simp [isErrorResp]), ?_⟩
        intro hprev hprevne _
        rw [hsnd]
        exact hpres _ (hpres st hprev hprevne) hprevne
    · next converterScript st2 heq =>
        have hsnd : st2 =
            detectPortalPaths ctx cfg env (detectPortalPaths ctx cfg env st) := by
          have hbase := getGdConverterScriptPath_snd ctx cfg env
            (detectPortalPaths ctx cfg env st) "create_godot.py"
          rw [heq] at hbase
          simpa using hbase
        generalize ([fbv.getD "", normalize outDir] ++
          (if args.overwriteLevels = some true then ["--overwrite-levels"] else [])) = sargs
        split
        · -- converter exit code nonzero: portal is the second detection pass
          refine ⟨fun hfalse => absurd hfalse (by simp [isErrorResp]), ?_⟩
          intro hprev hprevne _
          rw [hsnd]
          exact hpres _ (hpres st hprev hprevne) hprevne
        · -- success: the output directory is remembered and resolves
          refine ⟨fun _ => ⟨by simp [normalize], ?_⟩,
            fun _ _ htrue => absurd htrue (by simp [isErrorResp])⟩
          exact hresolve _ (by simp [normalize])

/-- C10 witness: a concrete successful creation into "out" overwrites the
remembered project path and later argument-less resolution returns it. -/
theorem C10_create_project_remembers_witness :
    (handleCreatePortalProject ⟨fun _ => true, "cwd", "dir"⟩ ⟨none, none, none⟩
        ⟨none, none, none⟩ ⟨fun _ _ => (0, "", "")⟩ ⟨none, none, none⟩
        ⟨some "fb", some "out", none⟩).portal.portalProjectPath = some "out" ∧
    (resolveProjectPath ⟨fun _ => true, "cwd", "dir"⟩ ⟨none, none, none⟩ ⟨none, none, none⟩
        (handleCreatePortalProject ⟨fun _ => true, "cwd", "dir"⟩ ⟨none, none, none⟩
          ⟨none, none, none⟩ ⟨fun _ _ => (0, "", "")⟩ ⟨none, none, none⟩
          ⟨some "fb", some "out", none⟩).portal none).1 = some "out" :=
  (C10_create_project_remembers ⟨fun _ => true, "cwd", "dir"⟩ ⟨none, none, none⟩
    ⟨none, none, none⟩ ⟨fun _ _ => (0, "", "")⟩ ⟨none, none, none⟩
    ⟨some "fb", some "out", none⟩ "out" "prev" rfl (by decide)).1 rfl

end PortalMcp
